import Mathlib

/-!
Verification development for the DenoSaur OpenAPI client generator.

The TypeScript sources (`src/utils/dynamic-client-generator.ts`,
`src/utils/type-generators.ts`, `src/utils/generateFromOpenAPI.ts`) are
shallowly embedded below.  JavaScript values reachable from a parsed
OpenAPI document are modelled by the inductive type `Json`; JavaScript
runtime errors (`TypeError` from property access on `null`/`undefined`,
calling a method that does not exist, ...) are modelled with
`Except String`.  Every embedded function mirrors its source line by
line, including truthiness tests, optional chaining, `||` defaults and
first-occurrence-only `String.replace`.
-/

set_option linter.unusedVariables false
set_option maxHeartbeats 1600000
set_option maxRecDepth 8000

namespace DenoSaur

/-- Left brace character, written via its code point. -/
def lb : Char := Char.ofNat 123

/-- Right brace character, written via its code point. -/
def rb : Char := Char.ofNat 125

/-- A JavaScript value as produced by JSON/YAML parsing, plus `undef`
for JavaScript `undefined` (the result of reading an absent field). -/
inductive Json where
  | undef
  | null
  | bool (b : Bool)
  | num (n : Int)
  | str (s : String)
  | arr (elems : List Json)
  | obj (fields : List (String × Json))

/-- JavaScript truthiness. Empty arrays and empty objects are truthy. -/
def truthy : Json → Bool
  | .undef => false
  | .null => false
  | .bool b => b
  | .num n => n != 0
  | .str s => s != ""
  | .arr _ => true
  | .obj _ => true

/-- JavaScript `typeof v === "object"` (true for `null`, arrays and objects). -/
def isTypeofObject : Json → Bool
  | .null => true
  | .arr _ => true
  | .obj _ => true
  | _ => false

/-- JavaScript `Array.isArray`. -/
def isJsArray : Json → Bool
  | .arr _ => true
  | _ => false

/-- Loose equality with `undefined` (`v == undefined`), true for both
`undefined` and `null`. -/
def looseUndef : Json → Bool
  | .undef => true
  | .null => true
  | _ => false

/-- First-match lookup of a key in an object's field list; absent keys
read as `undefined`. -/
def lookupField : List (String × Json) → String → Json
  | [], _ => .undef
  | (k, v) :: rest, key => if k == key then v else lookupField rest key

/-- Property access `o.k` on a receiver that is known not to be
`null`/`undefined` (JavaScript primitives yield `undefined` for any
named property we ever read). -/
def fieldOf : Json → String → Json
  | .obj fs, k => lookupField fs k
  | _, _ => (.undef)

/-- Property access `o.k` in full: a `TypeError` on `null`/`undefined`
receivers, otherwise as `fieldOf`. -/
def getFieldE : Json → String → Except String Json
  | .undef, _ => .error "TypeError: cannot read properties of undefined"
  | .null, _ => .error "TypeError: cannot read properties of null"
  | j, k => .ok (fieldOf j k)

/-- Optional chaining `o?.k`: short-circuits `null`/`undefined` to
`undefined`. -/
def optField : Json → String → Json
  | .undef, _ => .undef
  | .null, _ => .undef
  | j, k => fieldOf j k

/-- JavaScript `a || b`. -/
def jsOr (a b : Json) : Json := if truthy a then a else b

/-- Strict equality `v === s` against a string literal. -/
def strictEqStr : Json → String → Bool
  | .str s, x => s == x
  | _, _ => false

/-- `Object.entries`, for object and array receivers.  Numeric and
boolean receivers have no enumerable properties; string receivers (whose
characters JavaScript would enumerate) are not modelled, no call site
reaches them with a relevant value. -/
def entriesOf : Json → List (String × Json)
  | .obj fs => fs
  | .arr xs => (xs.enum.map fun p => (toString p.1, p.2))
  | _ => []

/-- `Object.entries` with the `TypeError` JavaScript raises on
`null`/`undefined` receivers. -/
def entriesE : Json → Except String (List (String × Json))
  | .undef => .error "TypeError: cannot convert undefined to object"
  | .null => .error "TypeError: cannot convert null to object"
  | j => .ok (entriesOf j)

/-- `for (const x of v)`: arrays iterate their elements, strings their
characters; other values are not iterable. -/
def iterE : Json → Except String (List Json)
  | .arr xs => .ok xs
  | .str s => .ok (s.data.map fun c => Json.str (String.mk [c]))
  | _ => .error "TypeError: value is not iterable"

mutual
/-- JavaScript `String(v)` coercion. -/
def jsToString : Json → String
  | .undef => "undefined"
  | .null => "null"
  | .bool b => if b then "true" else "false"
  | .num n => toString n
  | .str s => s
  | .arr xs => jsArrayJoin "," xs
  | .obj _ => "[object Object]"

/-- `Array.prototype.join`: `null`/`undefined` elements print as empty. -/
def jsArrayJoin (sep : String) : List Json → String
  | [] => ""
  | x :: rest =>
    (match x with
     | .undef => ""
     | .null => ""
     | y => jsToString y) ++ (if rest.isEmpty then "" else sep) ++ jsArrayJoin sep rest
end

/-- Characters of `sub` occur contiguously at the head of `hay`. -/
def charsPrefix : List Char → List Char → Bool
  | [], _ => true
  | _ :: _, [] => false
  | a :: as, b :: bs => a == b && charsPrefix as bs

/-- `sub` occurs contiguously somewhere in `hay`. -/
def charsOccur (sub : List Char) : List Char → Bool
  | [] => charsPrefix sub []
  | hay@(_ :: rest) => charsPrefix sub hay || charsOccur sub rest

/-- JavaScript `s.includes(sub)`. -/
def strOccurs (s sub : String) : Bool := charsOccur sub.data s.data

/-- Split scanner over non-overlapping occurrences of a non-empty
separator, scanning left to right as JavaScript
`String.prototype.split` with a string separator does.  The `Nat`
argument counts characters still to skip after a separator match, which
keeps the recursion structural. -/
def splitGo (sep : List Char) : List Char → Nat → List (List Char)
  | [], _ => [[]]
  | _ :: rest, Nat.succ k => splitGo sep rest k
  | c :: rest, 0 =>
    if charsPrefix sep (c :: rest) then
      [] :: splitGo sep rest (sep.length - 1)
    else
      match splitGo sep rest 0 with
      | [] => [[c]]
      | seg :: segs => (c :: seg) :: segs

/-- JavaScript `s.split(sep)` for the non-empty separators the code
uses (an empty separator is never passed). -/
def jsSplit (s sep : String) : List String :=
  match sep.data with
  | [] => [s]
  | _ => (splitGo sep.data s.data 0).map String.mk

/-- Join a list of strings with a separator. -/
def strIntercalate (sep : String) : List String → String
  | [] => ""
  | [x] => x
  | x :: rest => x ++ sep ++ strIntercalate sep rest

/-- Concatenation of a list of strings (`Array.prototype.join('')`). -/
def strConcat : List String → String
  | [] => ""
  | x :: rest => x ++ strConcat rest

/-- ASCII-faithful `toLowerCase`. -/
def strLower (s : String) : String := String.mk (s.data.map Char.toLower)

/-- ASCII-faithful `toUpperCase`. -/
def strUpper (s : String) : String := String.mk (s.data.map Char.toUpper)

/-- `s.startsWith(p)`. -/
def strStartsWith (s p : String) : Bool := charsPrefix p.data s.data

/-- `s.endsWith(p)`. -/
def strEndsWith (s p : String) : Bool := charsPrefix p.data.reverse s.data.reverse

/-- `s.replaceAll(pat, rep)` for a non-empty pattern. -/
def strReplaceAll (s pat rep : String) : String :=
  strIntercalate rep (jsSplit s pat)

/-- JavaScript `s.replace(pat, rep)` with a string pattern: replaces the
first occurrence only (our replacement strings use no `$`-patterns). -/
def jsReplaceOnce (s pat rep : String) : String :=
  if pat == "" then rep ++ s
  else
    match jsSplit s pat with
    | [] => s
    | [_] => s
    | x :: rest => x ++ rep ++ strIntercalate pat rest

/-- The bare-identifier regex `/^[a-zA-Z_$][a-zA-Z0-9_$]*$/`. -/
def isIdentStart (c : Char) : Bool := c.isAlpha || c == '_' || c == '$'

/-- Continuation character class `[a-zA-Z0-9_$]` of the same regex. -/
def isIdentChar (c : Char) : Bool := c.isAlphanum || c == '_' || c == '$'

/-- Test of the bare-identifier regex against a property name. -/
def isBareIdent (s : String) : Bool :=
  match s.data with
  | [] => false
  | c :: cs => isIdentStart c && cs.all isIdentChar

/-- Emitted field name: kept bare when it matches the identifier regex,
otherwise wrapped in double quotes. -/
def escapeName (s : String) : String :=
  if isBareIdent s then s else "\"" ++ s ++ "\""

/-- `required?.includes(name) ?? false`: optional chaining yields
`false` on a missing `required`, arrays use strict equality, strings use
substring containment, and other values raise. -/
def jsOptIncludes (j : Json) (x : String) : Except String Bool :=
  match j with
  | .undef => .ok false
  | .null => .ok false
  | .arr xs => .ok (xs.any fun v => strictEqStr v x)
  | .str s => .ok (strOccurs s x)
  | _ => .error "TypeError: includes is not a function"

/-- Literal rendering of one enum member:
`typeof value === "string" ? `"${value}"` : String(value)`. -/
def enumLit : Json → String
  | .str s => "\"" ++ s ++ "\""
  | v => jsToString v

end DenoSaur

namespace DenoSaur

/-! Size functions used for the well-founded recursion of the schema
resolver (field lookups return subterms of the schema object). -/

mutual
/-- Structural size of a `Json` value. -/
def jsize : Json → Nat
  | .undef => 1
  | .null => 1
  | .bool _ => 1
  | .num _ => 1
  | .str _ => 1
  | .arr xs => 1 + jsizeList xs
  | .obj fs => 1 + jsizeFields fs

/-- Structural size of a list of `Json` values. -/
def jsizeList : List Json → Nat
  | [] => 0
  | x :: rest => 1 + jsize x + jsizeList rest

/-- Structural size of an object's field list. -/
def jsizeFields : List (String × Json) → Nat
  | [] => 0
  | (_, v) :: rest => 1 + jsize v + jsizeFields rest
end

theorem jsize_lookupField (fs : List (String × Json)) (k : String) :
    lookupField fs k = Json.undef ∨ jsize (lookupField fs k) < jsizeFields fs := by
  induction fs with
  | nil => exact Or.inl rfl
  | cons p rest ih =>
    rcases p with ⟨k', v⟩
    cases h : k' == k with
    | true =>
      right
      simp only [lookupField, h, if_true, jsizeFields]
      omega
    | false =>
      simp only [lookupField, h, Bool.false_eq_true, if_false]
      rcases ih with h1 | h1
      · exact Or.inl h1
      · right
        simp only [jsizeFields]
        omega

theorem jsize_lookupField_of_truthy {fs : List (String × Json)} {k : String}
    (h : truthy (lookupField fs k) = true) :
    jsize (lookupField fs k) < jsizeFields fs := by
  rcases jsize_lookupField fs k with h1 | h1
  · rw [h1] at h
    simp [truthy] at h
  · exact h1

theorem jsize_lookupField_arr {fs : List (String × Json)} {k : String} {xs : List Json}
    (h : lookupField fs k = Json.arr xs) :
    jsizeList xs < jsizeFields fs := by
  rcases jsize_lookupField fs k with h1 | h1
  · rw [h1] at h
    cases h
  · rw [h] at h1
    simp only [jsize] at h1
    omega

theorem jsizeFields_enumFrom (xs : List Json) (ix : Nat) :
    jsizeFields ((xs.enumFrom ix).map fun p => (toString p.1, p.2)) = jsizeList xs := by
  induction xs generalizing ix with
  | nil => simp [jsizeFields, jsizeList, List.enumFrom]
  | cons x rest ih =>
    simp only [List.enumFrom, List.map_cons, jsizeFields, jsizeList]
    rw [ih (ix + 1)]

theorem jsizeFields_entriesOf (j : Json) : jsizeFields (entriesOf j) < jsize j := by
  cases j with
  | obj fs => simp [entriesOf, jsize]
  | arr xs =>
    simp only [entriesOf, List.enum, jsize]
    rw [jsizeFields_enumFrom]
    omega
  | undef => simp [entriesOf, jsizeFields, jsize]
  | null => simp [entriesOf, jsizeFields, jsize]
  | bool b => simp [entriesOf, jsizeFields, jsize]
  | num n => simp [entriesOf, jsizeFields, jsize]
  | str s => simp [entriesOf, jsizeFields, jsize]

end DenoSaur

namespace DenoSaur

/-! The client generator's schema resolver
(`convertSchemaToType`, dynamic-client-generator.ts, lines 526-598). -/

mutual
/-- `convertSchemaToType` of dynamic-client-generator.ts.  The opening
guard `if (!schema || typeof schema !== "object") return "any"` leaves
only arrays and plain objects; on an array every subsequent field probe
reads `undefined`, so the function falls through every branch to the
final `return "any"` — both facts are folded into the outer match. -/
def convertSchemaToType (schema : Json) : Except String String :=
  match schema with
  | .obj fs => convertObjSchema fs
  | _ => .ok "any"
termination_by jsize schema
decreasing_by
  simp only [jsize]
  omega

/-- Branch cascade of `convertSchemaToType` for a plain-object schema,
in source order: `$ref`, `anyOf`, `oneOf`, `allOf`, `type`, `enum`. -/
def convertObjSchema (fs : List (String × Json)) : Except String String :=
  let ref := lookupField fs "$ref"
  if truthy ref then
    match ref with
    | .str s =>
      let refName := (jsSplit s "/").getLastD ""
      .ok (if refName == "" then "unknown" else refName)
    | _ => .error "TypeError: split is not a function"
  else
    match hA : lookupField fs "anyOf" with
    | .arr xs => (convertSchemaList xs).map fun ts => strIntercalate " | " ts
    | _ =>
      match hO : lookupField fs "oneOf" with
      | .arr xs => (convertSchemaList xs).map fun ts => strIntercalate " | " ts
      | _ =>
        match hL : lookupField fs "allOf" with
        | .arr xs => (convertSchemaList xs).map fun ts => strIntercalate " & " ts
        | _ =>
          match lookupField fs "type" with
          | .str "string" => .ok "string"
          | .str "number" => .ok "number"
          | .str "integer" => .ok "number"
          | .str "boolean" => .ok "boolean"
          | .str "array" =>
            if hI : truthy (lookupField fs "items") = true then
              (convertSchemaToType (lookupField fs "items")).map fun t => t ++ "[]"
            else .ok "any[]"
          | .str "object" =>
            if hP : truthy (lookupField fs "properties") = true then
              (convertPropsList (lookupField fs "required")
                  (entriesOf (lookupField fs "properties"))).map
                fun ps => "\x7b " ++ strIntercalate "; " ps ++ " \x7d"
            else .ok "Record<string, any>"
          | _ =>
            let e := lookupField fs "enum"
            if truthy e then
              match e with
              | .arr vs => .ok (strIntercalate " | " (vs.map enumLit))
              | _ => .error "TypeError: map is not a function"
            else .ok "any"
termination_by jsizeFields fs
decreasing_by
  all_goals first
  | exact jsize_lookupField_arr (by assumption)
  | exact jsize_lookupField_of_truthy (by assumption)
  | exact lt_trans (jsizeFields_entriesOf _) (jsize_lookupField_of_truthy (by assumption))

/-- Resolution of each member of an `anyOf`/`oneOf`/`allOf` list. -/
def convertSchemaList : List Json → Except String (List String)
  | [] => .ok []
  | x :: rest => do
    let t ← convertSchemaToType x
    let ts ← convertSchemaList rest
    .ok (t :: ts)
termination_by xs => jsizeList xs
decreasing_by
  all_goals simp only [jsizeList]
  all_goals omega

/-- Per-property rendering of an object schema's `properties` entries:
escaped name + optional marker (absent iff `required` contains the
name) + resolved type. -/
def convertPropsList (required : Json) : List (String × Json) → Except String (List String)
  | [] => .ok []
  | (n, s) :: rest => do
    let isReq ← jsOptIncludes required n
    let t ← convertSchemaToType s
    let ts ← convertPropsList required rest
    .ok ((escapeName n ++ (if isReq then "" else "?") ++ ": " ++ t) :: ts)
termination_by ps => jsizeFields ps
decreasing_by
  all_goals simp only [jsizeFields]
  all_goals omega
end

end DenoSaur

namespace DenoSaur

/-! The type-generator pipeline (`type-generators.ts`): schema resolver,
declaration emitters and `createTypesFromApiData`.  Unlike the client
generator's resolver, this `convertSchemaToType` has no
non-object guard: its first action reads `schema.$ref`, which throws on
a `null`/`undefined` schema. -/

namespace TypeGen

/-- `convertSchemaToType` of type-generators.ts (lines 66-105). -/
def convertSchemaToType (schema : Json) : Except String String := do
  let ref ← getFieldE schema "$ref"
  if truthy ref then
    match ref with
    | .str s =>
      let refName := (jsSplit s "/").getLastD ""
      pure (if refName == "" then "unknown" else refName)
    | _ => .error "TypeError: split is not a function"
  else
    match fieldOf schema "type" with
    | .str "string" => pure "string"
    | .str "number" => pure "number"
    | .str "integer" => pure "number"
    | .str "boolean" => pure "boolean"
    | .str "array" =>
      if hI : truthy (fieldOf schema "items") = true then
        (convertSchemaToType (fieldOf schema "items")).map fun t => t ++ "[]"
      else pure "any[]"
    | .str "object" => pure "Record<string, any>"
    | _ =>
      let e := fieldOf schema "enum"
      if truthy e then
        match e with
        | .arr vs => pure (strIntercalate " | " (vs.map enumLit))
        | _ => .error "TypeError: map is not a function"
      else pure "any"
termination_by jsize schema
decreasing_by
  have h1 : schema ≠ Json.undef := by
    intro h
    subst h
    simp [fieldOf, truthy] at hI
  cases schema with
  | obj fs =>
    simp only [fieldOf] at hI
    have h2 := jsize_lookupField_of_truthy hI
    simp only [fieldOf, jsize]
    omega
  | undef => exact absurd rfl h1
  | null => simp [fieldOf, truthy] at hI
  | bool b => simp [fieldOf, truthy] at hI
  | num n => simp [fieldOf, truthy] at hI
  | str s => simp [fieldOf, truthy] at hI
  | arr xs => simp [fieldOf, truthy] at hI

/-- One rendered interface member of `generateInterface`:
`  name<?>: type;` — the property name is written verbatim, unquoted. -/
def interfaceProps (required : Json) : List (String × Json) → Except String String
  | [] => .ok ""
  | (n, s) :: rest => do
    let isReq ← jsOptIncludes required n
    let t ← convertSchemaToType s
    let ts ← interfaceProps required rest
    .ok (("  " ++ n ++ (if isReq then "" else "?") ++ ": " ++ t ++ ";\n") ++ ts)

/-- `generateInterface` of type-generators.ts (lines 34-49). -/
def generateInterface (typeName : String) (schema : Json) : Except String String := do
  let props ← getFieldE schema "properties"
  let body ←
    if truthy props then interfaceProps (fieldOf schema "required") (entriesOf props)
    else pure ""
  pure ("export interface " ++ typeName ++ " \x7b\n" ++ body ++ "\x7d")

/-- `generateEnum` of type-generators.ts (lines 51-59). -/
def generateEnum (typeName : String) (schema : Json) : Except String String := do
  let e ← getFieldE schema "enum"
  if truthy e then
    match e with
    | .arr vs =>
      pure ("export type " ++ typeName ++ " = " ++
        strIntercalate " | " (vs.map enumLit) ++ ";")
    | _ => .error "TypeError: map is not a function"
  else pure ""

/-- `generateTypeAlias` of type-generators.ts (lines 61-64). -/
def generateTypeAlias (typeName : String) (schema : Json) : Except String String := do
  let t ← convertSchemaToType schema
  pure ("export type " ++ typeName ++ " = " ++ t ++ ";")

/-- `generateTypeDefinition` of type-generators.ts (lines 22-32):
object-with-properties → interface, else enum, else alias. -/
def generateTypeDefinition (typeName : String) (schema : Json) : Except String String := do
  let ty ← getFieldE schema "type"
  if strictEqStr ty "object" && truthy (fieldOf schema "properties") then
    generateInterface typeName schema
  else if truthy (fieldOf schema "enum") then
    generateEnum typeName schema
  else
    generateTypeAlias typeName schema

/-- Header comment of the emitted types artifact, indentation exactly as
in the source's template literal. -/
def typesHeader (now : String) : String :=
  "// Auto-generated TypeScript types from OpenAPI schema\n  // Generated on: " ++
    now ++ "\n  \n  "

/-- Concatenation of all schema declarations, each followed by a blank
line. -/
def typeDefsList : List (String × Json) → Except String String
  | [] => .ok ""
  | (n, s) :: rest => do
    let d ← generateTypeDefinition n s
    let r ← typeDefsList rest
    .ok (d ++ "\n\n" ++ r)

end TypeGen

/-- The in-memory OpenAPI document.  All four members are raw parsed
values; the generators probe them exactly as the TypeScript does. -/
structure OpenAPIData where
  servers : Json
  paths : Json
  security : Json
  components : Json

namespace TypeGen

/-- `createTypesFromApiData` of type-generators.ts (lines 4-20): reads
`apiData.components.schemas`, returns `""` when that is loosely equal to
`undefined`, and otherwise the timestamped header followed by every
declaration.  `now` stands for `new Date().toISOString()`. -/
def createTypesFromApiData (now : String) (apiData : OpenAPIData) : Except String String := do
  let schemas ← getFieldE apiData.components "schemas"
  if looseUndef schemas then
    pure ""
  else do
    let defs ← typeDefsList (entriesOf schemas)
    pure (typesHeader now ++ defs)

end TypeGen

end DenoSaur

namespace DenoSaur

/-! Path analysis (`analyzePath`, `groupPathsByResource`) and the
per-operation helpers of dynamic-client-generator.ts. -/

/-- Scanner equivalent to the global regex `/\{([^}]+)\}/g`: outside a
candidate match, a `{` opens one; inside, characters up to the next `}`
are collected (a successful match needs at least one) and scanning
resumes after the `}`; an unterminated `{` ends the scan, exactly as the
regex finds no further match once no `}` remains. -/
def paramScan : List Char → Option (List Char) → List String
  | [], _ => []
  | c :: rest, none =>
    if c == lb then paramScan rest (some []) else paramScan rest none
  | c :: rest, some acc =>
    if c == rb then
      if acc.isEmpty then paramScan rest none
      else String.mk acc :: paramScan rest none
    else paramScan rest (some (acc ++ [c]))

/-- `path.match(/\{([^}]+)\}/g)?.map(param => param.slice(1, -1)) || []`. -/
def pathParamsOf (path : String) : List String := paramScan path.data none

/-- The analyzed shape of one `(path, method, operation)` triple. -/
structure PathInfo where
  path : String
  method : String
  operation : Json
  resourceName : String
  isCollection : Bool
  isResource : Bool
  pathParams : List String

/-- `analyzePath` of dynamic-client-generator.ts (lines 181-205). -/
def analyzePath (path method : String) (operation : Json) : PathInfo :=
  let pathSegments := (jsSplit path "/").filter
    fun seg => seg != "" && !(strStartsWith seg "\x7b")
  let lastSeg := pathSegments.getLastD ""
  let resourceName := if lastSeg == "" then "root" else lastSeg
  let isRes := strOccurs path "\x7b"
  { path := path, method := method, operation := operation,
    resourceName := resourceName,
    isCollection := !isRes, isResource := isRes,
    pathParams := pathParamsOf path }

/-- Append into the inner (resource-name-keyed) level of the grouping,
preserving first-insertion key order. -/
def addInner (pi : PathInfo) : List (String × List PathInfo) → List (String × List PathInfo)
  | [] => [(pi.resourceName, [pi])]
  | (r, l) :: rest =>
    if r == pi.resourceName then (r, l ++ [pi]) :: rest
    else (r, l) :: addInner pi rest

/-- Append into the outer (verb-keyed) level of the grouping. -/
def addPathInfo (groups : List (String × List (String × List PathInfo))) (pi : PathInfo) :
    List (String × List (String × List PathInfo)) :=
  match groups with
  | [] => [(pi.method, addInner pi [])]
  | (m, inner) :: rest =>
    if m == pi.method then (m, addInner pi inner) :: rest
    else (m, inner) :: addPathInfo rest pi

/-- `groupPathsByResource` (lines 207-225): verb → resource name → list
of `PathInfo`, in document order (string keys iterate in insertion
order; no claim uses integer-like keys, whose iteration JavaScript would
reorder). -/
def groupPathsByResource (pathInfos : List PathInfo) :
    List (String × List (String × List PathInfo)) :=
  pathInfos.foldl addPathInfo []

/-- `groups[k] || defaultValue` over the association lists above. -/
def assocD {α : Type} : List (String × α) → String → α → α
  | [], _, d => d
  | (k', v) :: rest, k, d => if k' == k then v else assocD rest k d

/-- Strict equality `v === true`. -/
def strictEqTrue : Json → Bool
  | .bool true => true
  | _ => false

/-- Index-passing map (`Array.prototype.map((x, i) => ...)`). -/
def mapIdxFrom {A B : Type} (f : Nat → A → B) : Nat → List A → List B
  | _, [] => []
  | i, x :: rest => f i x :: mapIdxFrom f (i + 1) rest

/-- `word.charAt(0).toUpperCase() + word.slice(1).toLowerCase()`. -/
def jsCapitalize (w : String) : String :=
  match w.data with
  | [] => ""
  | c :: cs => String.mk [c.toUpper] ++ strLower (String.mk cs)

/-- Camel-casing applied to a declared operationId (lines 602-611):
non-alphanumerics become spaces, the string is split at single spaces
(keeping empty fragments), fragment 0 is fully lower-cased and every
later fragment gets `jsCapitalize`. -/
def camelOfOperationId (s : String) : String :=
  let replaced := String.mk (s.data.map fun c => if c.isAlphanum then c else ' ')
  let words := jsSplit replaced " "
  strConcat (mapIdxFrom (fun i w => if i == 0 then strLower w else jsCapitalize w) 0 words)

/-- `getMethodName` of dynamic-client-generator.ts (lines 600-614). -/
def getMethodName (operation : Json) (fallback : String) : Except String String :=
  let opId := fieldOf operation "operationId"
  if truthy opId then
    match opId with
    | .str s => .ok (camelOfOperationId s)
    | _ => .error "TypeError: replace is not a function"
  else .ok fallback

/-- `getResponseType` (lines 507-516): first of responses 200/201/204,
then its JSON content schema, each level defaulting to "any". -/
def getResponseType (operation : Json) : Except String String := do
  let responses := fieldOf operation "responses"
  let response := jsOr (optField responses "200")
    (jsOr (optField responses "201") (optField responses "204"))
  if truthy response then
    let schema := optField (optField (fieldOf response "content") "application/json") "schema"
    if truthy schema then convertSchemaToType schema else pure "any"
  else pure "any"

/-- `getRequestType` (lines 518-524): JSON request-body schema, with the
form-urlencoded schema as fallback. -/
def getRequestType (operation : Json) : Except String String := do
  let reqBody := fieldOf operation "requestBody"
  let schema := jsOr
    (optField (optField (optField reqBody "content") "application/json") "schema")
    (optField (optField (optField reqBody "content") "application/x-www-form-urlencoded") "schema")
  if truthy schema then convertSchemaToType schema else pure "any"

/-- `operation.parameters.filter(p => p.in === "query")`; the access
`p.in` throws on null entries, as in the source's arrow function. -/
def filterQueryParams : List Json → Except String (List Json)
  | [] => .ok []
  | p :: rest => do
    let locTag ← getFieldE p "in"
    let r ← filterQueryParams rest
    .ok (if strictEqStr locTag "query" then p :: r else r)

/-- The property-rendering loop of `getQueryParamsType`: emitted entry
plus the running `hasRequired` flag. -/
def qpLoop : List Json → Except String (List String × Bool)
  | [] => .ok ([], false)
  | param :: rest => do
    let isRequired := strictEqTrue (fieldOf param "required")
    let paramType ← convertSchemaToType
      (jsOr (fieldOf param "schema") (Json.obj [("type", Json.str "string")]))
    let nameS := jsToString (fieldOf param "name")
    let escaped := if isBareIdent nameS then nameS else "\"" ++ nameS ++ "\""
    let (props, hr) ← qpLoop rest
    .ok ((escaped ++ (if isRequired then "" else "?") ++ ": " ++ paramType) :: props,
      isRequired || hr)

/-- `getQueryParamsType` (lines 478-505). -/
def getQueryParamsType (operation : Json) : Except String (String × Bool) :=
  match fieldOf operation "parameters" with
  | .arr xs => do
    let qps ← filterQueryParams xs
    if qps.length == 0 then pure ("QueryParams", false)
    else do
      let (props, hasRequired) ← qpLoop qps
      let ty := if props.length > 0 then
          "\x7b " ++ strIntercalate "; " props ++ " \x7d"
        else "QueryParams"
      pure (ty, hasRequired)
  | _ => pure ("QueryParams", false)

end DenoSaur

namespace DenoSaur

instance {A B : Type} [DecidableEq A] [DecidableEq B] : DecidableEq (Except A B) :=
  fun x y =>
    match x, y with
    | .ok a, .ok b =>
      if h : a = b then .isTrue (by rw [h]) else .isFalse (by intro he; cases he; exact h rfl)
    | .error a, .error b =>
      if h : a = b then .isTrue (by rw [h]) else .isFalse (by intro he; cases he; exact h rfl)
    | .ok _, .error _ => .isFalse (by intro he; cases he)
    | .error _, .ok _ => .isFalse (by intro he; cases he)

/-! The security resolver (`getSecurityRequirements`, lines 616-656). -/

/-- Rendering of one found scheme in the `switch (scheme.type)`. -/
def renderScheme (schemeName : String) (scheme scopes : Json) : Except String String :=
  match fieldOf scheme "type" with
  | .str "http" =>
    match fieldOf scheme "scheme" with
    | .str "basic" => .ok "Basic Authentication"
    | .str "bearer" => .ok "Bearer Token"
    | .str v => .ok ("HTTP " ++ strUpper v)
    | .undef => .ok "HTTP undefined"
    | .null => .ok "HTTP undefined"
    | _ => .error "TypeError: toUpperCase is not a function"
  | .str "apiKey" =>
    .ok ("API Key (" ++ jsToString (fieldOf scheme "in") ++ ": " ++
      jsToString (fieldOf scheme "name") ++ ")")
  | .str "oauth2" =>
    .ok ("OAuth2" ++
      (match scopes with
       | .arr ss => if ss.length > 0 then " (" ++ jsArrayJoin ", " ss ++ ")" else ""
       | _ => ""))
  | .str "openIdConnect" => .ok "OpenID Connect"
  | _ => .ok schemeName

/-- Inner loop over `Object.entries(securityRequirement)`: schemes
missing from the registry are skipped silently. -/
def secEntries (apiData : OpenAPIData) : List (String × Json) → Except String (List String)
  | [] => .ok []
  | (schemeName, scopes) :: rest => do
    let scheme := optField (optField apiData.components "securitySchemes") schemeName
    if truthy scheme then do
      let lbl ← renderScheme schemeName scheme scopes
      let more ← secEntries apiData rest
      pure (lbl :: more)
    else
      secEntries apiData rest

/-- Outer loop over the chosen security-requirement list. -/
def secLoop (apiData : OpenAPIData) : List Json → Except String (List String)
  | [] => .ok []
  | req :: rest => do
    let entries ← entriesE req
    let labels ← secEntries apiData entries
    let more ← secLoop apiData rest
    pure (labels ++ more)

/-- `getSecurityRequirements` (lines 616-656):
`operation.security || apiData.security || []` (a declared empty array
is truthy, so it wins and yields no requirements), then per-requirement
scheme rendering. -/
def getSecurityRequirements (operation : Json) (apiData : OpenAPIData) :
    Except String (List String) := do
  let operationSecurity := fieldOf operation "security"
  let securityToCheck := jsOr (jsOr operationSecurity apiData.security) (Json.arr [])
  let items ← iterE securityToCheck
  secLoop apiData items

end DenoSaur

namespace DenoSaur

/-! The client emitters (`generateCollectionMethods`,
`generateResourceMethods`, `generateDirectMethod`), transcribed template
piece by template piece.  Braces and apostrophes inside the emitted
TypeScript are written with hexadecimal escapes. -/

/-- Short-circuiting `parameters.some((p) => p.in === "query")`. -/
def someIsQuery : List Json → Except String Bool
  | [] => .ok false
  | p :: rest => do
    let locTag ← getFieldE p "in"
    if strictEqStr locTag "query" then pure true else someIsQuery rest

/-- `pathInfo.operation.parameters?.some((p) => p.in === "query") || false`. -/
def hasQueryParamsE (operation : Json) : Except String Bool :=
  match fieldOf operation "parameters" with
  | .undef => .ok false
  | .null => .ok false
  | .arr xs => someIsQuery xs
  | _ => .error "TypeError: some is not a function"

/-- `generateCollectionMethods` (lines 227-360): nested
`resource.queryParams/.data` members when a query parameter exists,
otherwise a direct `resource:` arrow function. -/
def generateCollectionMethods (resourceName : String) (pathInfo : PathInfo)
    (apiData : OpenAPIData) : Except String String := do
  let hasQueryParams ← hasQueryParamsE pathInfo.operation
  let useNested := hasQueryParams
  let pfx := if useNested then "" else "      "
  let code0 := if useNested then "    " ++ resourceName ++ ": \x7b\n"
    else "    " ++ resourceName ++ ": "
  let summ := fieldOf pathInfo.operation "summary"
  let desc := fieldOf pathInfo.operation "description"
  let getPart ←
    if pathInfo.method == "get" then do
      let responseType ← getResponseType pathInfo.operation
      let methodName ←
        if useNested then getMethodName pathInfo.operation "queryParams" else pure ""
      let securityRequirements ← getSecurityRequirements pathInfo.operation apiData
      let qp ← getQueryParamsType pathInfo.operation
      let defaultValue := if qp.2 then "" else " = \x7b\x7d"
      let head :=
        if useNested then
          "      /**\n" ++
          "       * " ++ (if truthy summ then jsToString summ else methodName) ++ "\n" ++
          (if truthy desc then "       * " ++ jsToString desc ++ "\n" else "") ++
          (if securityRequirements.length > 0 then
            "       * @requires " ++ strIntercalate ", " securityRequirements ++ "\n" else "") ++
          "       */\n" ++
          "      " ++ methodName ++ ": async (params: " ++ qp.1 ++ defaultValue ++
            "): Promise<ApiResponse<" ++ responseType ++ ">> => \x7b\n"
        else
          "/**\n" ++
          " * " ++ (if truthy summ then jsToString summ else resourceName) ++ "\n" ++
          (if truthy desc then " * " ++ jsToString desc ++ "\n" else "") ++
          (if securityRequirements.length > 0 then
            " * @requires " ++ strIntercalate ", " securityRequirements ++ "\n" else "") ++
          " */\n" ++
          "async (params: " ++ qp.1 ++ defaultValue ++ "): Promise<ApiResponse<" ++
            responseType ++ ">> => \x7b\n" ++
          "      "
      pure (head ++
        "const url = new URL(`$\x7bthis.config.baseUrl\x7d" ++ pathInfo.path ++ "`);\n" ++
        pfx ++ "Object.entries(params).forEach(([key, value]) => \x7b\n" ++
        pfx ++ "  if (value !== undefined) \x7b\n" ++
        pfx ++ "    url.searchParams.append(key, String(value));\n" ++
        pfx ++ "  \x7d\n" ++
        pfx ++ "\x7d);\n" ++
        "        \n" ++
        pfx ++ "const response = await fetch(url.toString(), \x7b\n" ++
        pfx ++ "  method: \x27" ++ strUpper pathInfo.method ++ "\x27,\n" ++
        pfx ++ "  headers: this.config.headers,\n" ++
        pfx ++ "\x7d);\n" ++
        "        \n" ++
        pfx ++ "const data = await response.json();\n" ++
        pfx ++ "return \x7b\n" ++
        pfx ++ "  data,\n" ++
        pfx ++ "  status: response.status,\n" ++
        pfx ++ "  statusText: response.statusText,\n" ++
        pfx ++ "\x7d;\n" ++
        (if useNested then "      \x7d,\n" else "    \x7d,\n"))
    else pure ""
  let dataPart ←
    if truthy (fieldOf pathInfo.operation "requestBody") then do
      let requestType ← getRequestType pathInfo.operation
      let responseType ← getResponseType pathInfo.operation
      let methodName ←
        if useNested then getMethodName pathInfo.operation "data" else pure ""
      let securityRequirements ← getSecurityRequirements pathInfo.operation apiData
      let head :=
        if useNested then
          "      /**\n" ++
          "       * " ++ (if truthy summ then jsToString summ else methodName) ++ "\n" ++
          (if truthy desc then "       * " ++ jsToString desc ++ "\n" else "") ++
          (if securityRequirements.length > 0 then
            "       * @requires " ++ strIntercalate ", " securityRequirements ++ "\n" else "") ++
          "       */\n" ++
          "      " ++ methodName ++ ": async (body: " ++ requestType ++
            "): Promise<ApiResponse<" ++ responseType ++ ">> => \x7b\n"
        else
          "/**\n" ++
          " * " ++ (if truthy summ then jsToString summ else resourceName) ++ "\n" ++
          (if truthy desc then " * " ++ jsToString desc ++ "\n" else "") ++
          (if securityRequirements.length > 0 then
            " * @requires " ++ strIntercalate ", " securityRequirements ++ "\n" else "") ++
          " */\n" ++
          "async (body: " ++ requestType ++ "): Promise<ApiResponse<" ++
            responseType ++ ">> => \x7b\n" ++
          "      "
      pure (head ++
        "const response = await fetch(`$\x7bthis.config.baseUrl\x7d" ++ pathInfo.path ++ "`, \x7b\n" ++
        pfx ++ "  method: \x27" ++ strUpper pathInfo.method ++ "\x27,\n" ++
        pfx ++ "  headers: \x7b\n" ++
        pfx ++ "    \x27Content-Type\x27: \x27application/json\x27,\n" ++
        pfx ++ "    ...this.config.headers,\n" ++
        pfx ++ "  \x7d,\n" ++
        pfx ++ "  body: JSON.stringify(body),\n" ++
        pfx ++ "\x7d);\n" ++
        "        \n" ++
        pfx ++ "const data = await response.json();\n" ++
        pfx ++ "return \x7b\n" ++
        pfx ++ "  data,\n" ++
        pfx ++ "  status: response.status,\n" ++
        pfx ++ "  statusText: response.statusText,\n" ++
        pfx ++ "\x7d;\n" ++
        (if useNested then "      \x7d,\n" else "    \x7d,\n"))
    else pure ""
  pure (code0 ++ getPart ++ dataPart ++ (if useNested then "    \x7d,\n" else ""))

/-- `generateResourceMethods` (lines 362-476): the no-operationId
resource-endpoint emitter.  GET yields `singular: (id) => ({ get ... })`;
a request body yields the curried `singular: (id) => async (body) =>`;
DELETE yields the curried `singular: (id) => async () =>`; anything else
yields the `() => {}` stub of line 475. -/
def generateResourceMethods (resourceName : String) (pathInfo : PathInfo)
    (apiData : OpenAPIData) : Except String String := do
  let singularName := if strEndsWith resourceName "s" then
      String.mk resourceName.data.dropLast
    else resourceName
  let p0 := pathInfo.pathParams.headD ""
  let paramName := if p0 == "" then "id" else p0
  let responseType ← getResponseType pathInfo.operation
  let securityRequirements ← getSecurityRequirements pathInfo.operation apiData
  let summ := fieldOf pathInfo.operation "summary"
  let desc := fieldOf pathInfo.operation "description"
  let urlPath := jsReplaceOnce pathInfo.path ("\x7b" ++ paramName ++ "\x7d")
    ("$\x7b" ++ paramName ++ "\x7d")
  if pathInfo.method == "get" then do
    let methodName ← getMethodName pathInfo.operation "get"
    pure ("    " ++ singularName ++ ": (" ++ paramName ++ ": string) => (\x7b\n" ++
      "      /**\n" ++
      "       * " ++ (if truthy summ then jsToString summ else methodName) ++ "\n" ++
      (if truthy desc then "       * " ++ jsToString desc ++ "\n" else "") ++
      (if securityRequirements.length > 0 then
        "       * @requires " ++ strIntercalate ", " securityRequirements ++ "\n" else "") ++
      "       */\n" ++
      "      " ++ methodName ++ ": async (): Promise<ApiResponse<" ++ responseType ++
        ">> => \x7b\n" ++
      "        const response = await fetch(`$\x7bthis.config.baseUrl\x7d" ++ urlPath ++
        "`, \x7b\n" ++
      "          method: \x27" ++ strUpper pathInfo.method ++ "\x27,\n" ++
      "          headers: this.config.headers,\n" ++
      "        \x7d);\n" ++
      "        \n" ++
      "        const data = await response.json();\n" ++
      "        return \x7b\n" ++
      "          data,\n" ++
      "          status: response.status,\n" ++
      "          statusText: response.statusText,\n" ++
      "        \x7d;\n" ++
      "      \x7d,\n" ++
      "    \x7d),\n")
  else if truthy (fieldOf pathInfo.operation "requestBody") then do
    let requestType ← getRequestType pathInfo.operation
    pure ("    " ++ singularName ++ ": (" ++ paramName ++ ": string) => " ++
      "/**\n" ++
      " * " ++ (if truthy summ then jsToString summ else resourceName) ++ "\n" ++
      (if truthy desc then " * " ++ jsToString desc ++ "\n" else "") ++
      (if securityRequirements.length > 0 then
        " * @requires " ++ strIntercalate ", " securityRequirements ++ "\n" else "") ++
      " */\n" ++
      "async (body: " ++ requestType ++ "): Promise<ApiResponse<" ++ responseType ++
        ">> => \x7b\n" ++
      "      const response = await fetch(`$\x7bthis.config.baseUrl\x7d" ++ urlPath ++
        "`, \x7b\n" ++
      "        method: \x27" ++ strUpper pathInfo.method ++ "\x27,\n" ++
      "        headers: \x7b\n" ++
      "          \x27Content-Type\x27: \x27application/json\x27,\n" ++
      "          ...this.config.headers,\n" ++
      "        \x7d,\n" ++
      "        body: JSON.stringify(body),\n" ++
      "      \x7d);\n" ++
      "      \n" ++
      "      const data = await response.json();\n" ++
      "      return \x7b\n" ++
      "        data,\n" ++
      "        status: response.status,\n" ++
      "        statusText: response.statusText,\n" ++
      "      \x7d;\n" ++
      "    \x7d,\n")
  else if pathInfo.method == "delete" then
    pure ("    " ++ singularName ++ ": (" ++ paramName ++ ": string) => " ++
      "/**\n" ++
      " * " ++ (if truthy summ then jsToString summ else resourceName) ++ "\n" ++
      (if truthy desc then " * " ++ jsToString desc ++ "\n" else "") ++
      (if securityRequirements.length > 0 then
        " * @requires " ++ strIntercalate ", " securityRequirements ++ "\n" else "") ++
      " */\n" ++
      "async (): Promise<ApiResponse<void>> => \x7b\n" ++
      "      const response = await fetch(`$\x7bthis.config.baseUrl\x7d" ++ urlPath ++
        "`, \x7b\n" ++
      "        method: \x27" ++ strUpper pathInfo.method ++ "\x27,\n" ++
      "        headers: this.config.headers,\n" ++
      "      \x7d);\n" ++
      "      \n" ++
      "      return \x7b\n" ++
      "        data: undefined,\n" ++
      "        status: response.status,\n" ++
      "        statusText: response.statusText,\n" ++
      "      \x7d;\n" ++
      "    \x7d,\n")
  else
    pure ("    " ++ singularName ++ ": () => \x7b\x7d,\n")

/-- `generateDirectMethod` (lines 658-820): the operationId-named
emitter; resource-shaped POST/PUT/DELETE/PATCH become the curried
two-step `opName: (id) => async (body?) =>`, everything else a direct
positional-parameter method. -/
def generateDirectMethod (pathInfo : PathInfo) (apiData : OpenAPIData) :
    Except String String := do
  let methodName ← getMethodName pathInfo.operation ""
  let responseType ← getResponseType pathInfo.operation
  let securityRequirements ← getSecurityRequirements pathInfo.operation apiData
  let pathParams := pathInfo.pathParams
  let hasRequestBody := truthy (fieldOf pathInfo.operation "requestBody")
  let hasPathParams := pathParams.length > 0
  let summ := fieldOf pathInfo.operation "summary"
  let desc := fieldOf pathInfo.operation "description"
  let head :=
    "    /**\n" ++
    "     * " ++ (if truthy summ then jsToString summ else methodName) ++ "\n" ++
    (if truthy desc then "     * " ++ jsToString desc ++ "\n" else "") ++
    (if securityRequirements.length > 0 then
      "     * @requires " ++ strIntercalate ", " securityRequirements ++ "\n" else "") ++
    "     */\n" ++
    "    " ++ methodName ++ ": "
  let respBlock :=
    if pathInfo.method == "delete" && strOccurs responseType "void" then
      "      return \x7b\n" ++
      "        data: undefined,\n" ++
      "        status: response.status,\n" ++
      "        statusText: response.statusText,\n" ++
      "      \x7d;\n"
    else
      "      const data = await response.json();\n" ++
      "      return \x7b\n" ++
      "        data,\n" ++
      "        status: response.status,\n" ++
      "        statusText: response.statusText,\n" ++
      "      \x7d;\n"
  if hasPathParams && (pathInfo.method == "post" || pathInfo.method == "put" ||
      pathInfo.method == "delete" || pathInfo.method == "patch") then do
    let paramName := pathParams.headD ""
    let secondStep ←
      if hasRequestBody then do
        let requestType ← getRequestType pathInfo.operation
        pure ("async (body: " ++ requestType ++ "): Promise<ApiResponse<" ++
          responseType ++ ">> => \x7b\n")
      else
        pure ("async (): Promise<ApiResponse<" ++ responseType ++ ">> => \x7b\n")
    let urlTemplate := pathParams.foldl
      (fun u param => jsReplaceOnce u ("\x7b" ++ param ++ "\x7d") ("$\x7b" ++ param ++ "\x7d"))
      pathInfo.path
    let fetchTail :=
      if hasRequestBody then
        "        headers: \x7b\n" ++
        "          \x27Content-Type\x27: \x27application/json\x27,\n" ++
        "          ...this.config.headers,\n" ++
        "        \x7d,\n" ++
        "        body: JSON.stringify(body),\n"
      else
        "        headers: this.config.headers,\n"
    pure (head ++ "(" ++ paramName ++ ": string) => " ++ secondStep ++
      "      const response = await fetch(`$\x7bthis.config.baseUrl\x7d" ++ urlTemplate ++
        "`, \x7b\n" ++
      "        method: \x27" ++ strUpper pathInfo.method ++ "\x27,\n" ++
      fetchTail ++
      "      \x7d);\n" ++
      "      \n" ++
      respBlock ++
      "    \x7d,\n")
  else do
    let pparams := pathParams.map fun param => param ++ ": string"
    let qparams ←
      if pathInfo.method == "get" then do
        let qp ← getQueryParamsType pathInfo.operation
        let defaultValue := if qp.2 then "" else " = \x7b\x7d"
        pure ["params: " ++ qp.1 ++ defaultValue]
      else pure []
    let bparams ←
      if hasRequestBody then do
        let requestType ← getRequestType pathInfo.operation
        pure ["body: " ++ requestType]
      else pure []
    let params := pparams ++ qparams ++ bparams
    let paramString := if params.length > 0 then
        "(" ++ strIntercalate ", " params ++ ")"
      else "()"
    let urlTemplate := pathParams.foldl
      (fun u param => jsReplaceOnce u ("\x7b" ++ param ++ "\x7d") ("$\x7b" ++ param ++ "\x7d"))
      ("`$\x7bthis.config.baseUrl\x7d" ++ pathInfo.path ++ "`")
    let qpBlock :=
      if pathInfo.method == "get" then
        "      Object.entries(params).forEach(([key, value]) => \x7b\n" ++
        "        if (value !== undefined) \x7b\n" ++
        "          url.searchParams.append(key, String(value));\n" ++
        "        \x7d\n" ++
        "      \x7d);\n"
      else ""
    let fetchOptions := ["method: \x27" ++ strUpper pathInfo.method ++ "\x27"] ++
      (if hasRequestBody then
        ["headers: \x7b\n        \x27Content-Type\x27: \x27application/json\x27,\n        ...this.config.headers,\n      \x7d",
         "body: JSON.stringify(body)"]
      else ["headers: this.config.headers"])
    let fetchOptionsString := strIntercalate ",\n      " fetchOptions
    pure (head ++ "async " ++ paramString ++ ": Promise<ApiResponse<" ++ responseType ++
      ">> => \x7b\n" ++
      "      const url = new URL(" ++ urlTemplate ++ ");\n" ++
      qpBlock ++
      "      \n" ++
      "      const response = await fetch(url.toString(), \x7b\n" ++
      "        " ++ fetchOptionsString ++ "\n" ++
      "      \x7d);\n" ++
      "      \n" ++
      respBlock ++
      "    \x7d,\n")

end DenoSaur

namespace DenoSaur

/-! `extractUsedTypes` and the top-level `generateClientFromOpenAPI`. -/

/-- `Set.prototype.add` on an insertion-ordered string set. -/
def setAdd (l : List String) (x : String) : List String :=
  if l.contains x then l else l ++ [x]

/-- The per-operation collection loop of `extractUsedTypes`
(lines 20-48): request then response type names, skipping inline
(brace-containing) and `"any"` expressions and stripping the first
`[]` occurrence. -/
def extractUsedTypesLoop : List PathInfo → List String → Except String (List String)
  | [], acc => .ok acc
  | pi :: rest, acc => do
    let acc1 ←
      if truthy (fieldOf pi.operation "requestBody") then do
        let requestType ← getRequestType pi.operation
        if requestType != "" && requestType != "any" && !(strOccurs requestType "\x7b") then
          let baseType := if strOccurs requestType "[]" then
              jsReplaceOnce requestType "[]" ""
            else requestType
          pure (if baseType != "" && baseType != "any" then setAdd acc baseType else acc)
        else pure acc
      else pure acc
    let responseType ← getResponseType pi.operation
    let acc2 :=
      if responseType != "" && responseType != "any" && !(strOccurs responseType "\x7b") then
        if strOccurs responseType "[]" then
          let baseType := jsReplaceOnce responseType "[]" ""
          if baseType != "" && baseType != "any" then setAdd acc1 baseType else acc1
        else setAdd acc1 responseType
      else acc1
    extractUsedTypesLoop rest acc2

/-- The fixed built-in type names excluded from imports (line 58). -/
def builtInTypes : List String := ["string", "number", "boolean", "any", "unknown", "never", "void"]

/-- `extractUsedTypes` (lines 13-62): operation type names, plus every
schema name of the registry, minus built-ins, sorted. -/
def extractUsedTypes (pathInfos : List PathInfo) (apiData : OpenAPIData) :
    Except String (List String) := do
  let used ← extractUsedTypesLoop pathInfos []
  let withSchemas :=
    if truthy (optField apiData.components "schemas") then
      (entriesOf (optField apiData.components "schemas")).foldl
        (fun acc p => setAdd acc p.1) used
    else used
  let filtered := withSchemas.filter fun t => !(builtInTypes.contains t)
  pure (filtered.insertionSort fun a b => a ≤ b)

/-- Non-null objects (`typeof operation === "object" && operation !== null`). -/
def isNonNullObject : Json → Bool
  | .arr _ => true
  | .obj _ => true
  | _ => false

/-- The nested path/method iteration of `generateClientFromOpenAPI`
(lines 70-77), collecting one `PathInfo` per object-valued entry. -/
def buildPathInfos : List (String × Json) → Except String (List PathInfo)
  | [] => .ok []
  | (path, pathObj) :: rest => do
    let methodEntries ← entriesE pathObj
    let here := methodEntries.filterMap fun me =>
      if isNonNullObject me.2 then some (analyzePath path me.1 me.2) else none
    let more ← buildPathInfos rest
    .ok (here ++ more)

/-- One element of the `Servers` union:
`(i > 0 ? "|" : "") + "'" + s.url + "'"`. -/
def serversParts : Nat → List Json → Except String (List String)
  | _, [] => .ok []
  | i, s :: rest => do
    let url ← getFieldE s "url"
    let more ← serversParts (i + 1) rest
    .ok (((if i > 0 then "|" else "") ++ "\x27" ++ jsToString url ++ "\x27") :: more)

/-- `${apiData.servers?.map(...)}`: an absent server list interpolates
as "undefined", an array joins its parts with commas, anything else has
no `.map`. -/
def serversTypeExpr : Json → Except String String
  | .undef => .ok "undefined"
  | .null => .ok "undefined"
  | .arr xs => do
    let parts ← serversParts 0 xs
    pure (strIntercalate "," parts)
  | _ => .error "TypeError: map is not a function"

/-- Per-resource step of the verb loop (lines 135-155): the first
collection-shaped and first resource-shaped entry each go to the direct
emitter when their operation has a truthy operationId, otherwise to the
fallback emitter; direct methods are emitted before fallbacks. -/
def genVerbEntries (apiData : OpenAPIData) :
    List (String × List PathInfo) → Except String (List String × List String)
  | [] => .ok ([], [])
  | (resourceNameRaw, paths) :: rest => do
    let collectionPath := paths.find? fun p => p.isCollection
    let resourcePath := paths.find? fun p => p.isResource
    let resourceName := strLower (strReplaceAll (strReplaceAll resourceNameRaw "." "_") "-" "_")
    let (d1, f1) ←
      match collectionPath with
      | some cp =>
        if truthy (fieldOf cp.operation "operationId") then do
          let m ← generateDirectMethod cp apiData
          pure ([m], ([] : List String))
        else do
          let m ← generateCollectionMethods resourceName cp apiData
          pure (([] : List String), [m])
      | none => pure (([] : List String), ([] : List String))
    let (d2, f2) ←
      match resourcePath with
      | some rp =>
        if truthy (fieldOf rp.operation "operationId") then do
          let m ← generateDirectMethod rp apiData
          pure ([m], ([] : List String))
        else do
          let m ← generateResourceMethods resourceName rp apiData
          pure (([] : List String), [m])
      | none => pure (([] : List String), ([] : List String))
    let (dr, fr) ← genVerbEntries apiData rest
    pure (d1 ++ d2 ++ dr, f1 ++ f2 ++ fr)

/-- The five handled HTTP verbs, in emission order (line 126). -/
def httpMethods : List String := ["get", "post", "put", "delete", "patch"]

/-- The `for (const method of httpMethods)` emission loop
(lines 128-168). -/
def genMethodSections (apiData : OpenAPIData)
    (resourceGroups : List (String × List (String × List PathInfo))) :
    List String → Except String String
  | [] => .ok ""
  | m :: rest => do
    let methodPaths := assocD resourceGroups m []
    let (directs, fallbacks) ← genVerbEntries apiData methodPaths
    let more ← genMethodSections apiData resourceGroups rest
    pure ("  " ++ m ++ " = \x7b\n" ++ strConcat directs ++ strConcat fallbacks ++
      "  \x7d;\n\n" ++ more)

/-- Template prefix up to the interpolated generation timestamp. -/
def clientHeaderPre : String :=
  "// Auto-generated API client from OpenAPI specification\n// Generated on: "

/-- Template between the timestamp and the per-verb members: imports,
`Servers` union, helper interfaces and the class opening (lines 85-123). -/
def clientHeaderRest (usedTypes : List String) (serversStr : String) : String :=
  "\n\n// Import generated types\n" ++
  (if usedTypes.length > 0 then
    strIntercalate "\n"
      (usedTypes.map fun t => "import \x7b " ++ t ++ " \x7d from \"./types.ts\";")
  else "") ++
  "\n\ntype Servers = " ++ serversStr ++ ";\n\n" ++
  "interface ClientConfig \x7b\n" ++
  "  baseUrl: Servers | string & \x7b\x7d;\n" ++
  "  headers?: Record<string, string>;\n" ++
  "\x7d\n\n" ++
  "interface QueryParams \x7b\n" ++
  "  [key: string]: string | number | boolean | undefined;\n" ++
  "\x7d\n\n" ++
  "interface RequestBody \x7b\n" ++
  "  [key: string]: any;\n" ++
  "\x7d\n\n" ++
  "interface ApiResponse<T = any> \x7b\n" ++
  "  data: T;\n" ++
  "  status: number;\n" ++
  "  statusText: string;\n" ++
  "\x7d\n\n" ++
  "class ApiClient \x7b\n" ++
  "  private config: ClientConfig;\n\n" ++
  "  constructor(config: ClientConfig) \x7b\n" ++
  "    this.config = config;\n" ++
  "  \x7d\n\n"

/-- Template suffix after the class members (lines 170-176). -/
def clientFooter : String :=
  "\x7d\n\nexport function createClient(config: ClientConfig): ApiClient \x7b\n" ++
  "  return new ApiClient(config);\n\x7d\n\n"

/-- `generateClientFromOpenAPI` (lines 64-179).  `now` stands for
`new Date().toISOString()`, the only non-deterministic input. -/
def generateClientFromOpenAPI (now : String) (apiData : OpenAPIData) :
    Except String String := do
  let pathEntries ← entriesE apiData.paths
  let pathInfos ← buildPathInfos pathEntries
  let resourceGroups := groupPathsByResource pathInfos
  let usedTypes ← extractUsedTypes pathInfos apiData
  let serversStr ← serversTypeExpr apiData.servers
  let methodsCode ← genMethodSections apiData resourceGroups httpMethods
  pure (clientHeaderPre ++ now ++ clientHeaderRest usedTypes serversStr ++
    methodsCode ++ clientFooter)

end DenoSaur

namespace DenoSaur

/-! Shapes of the emitted members, and evaluation lemmas relating each
emitter branch to its shape.  The shapes spell out the call syntax the
generated client exposes, which is what the behavioural claims are
about. -/

theorem okBind {A B C : Type} (a : B) (f : B → Except A C) :
    (Except.ok a : Except A B) >>= f = f a := rfl

theorem pureBind {A B C : Type} (a : B) (f : B → Except A C) :
    (pure a : Except A B) >>= f = f a := rfl

/-- The `ok` payload of a generation result (used to state substring
facts about concrete generated members). -/
def exOk : Except String String → String
  | .ok s => s
  | .error _ => ""

/-- The singular member name: `resourceName.slice(0, -1)` when it ends
in "s". -/
def singularOf (resourceName : String) : String :=
  if strEndsWith resourceName "s" then String.mk resourceName.data.dropLast else resourceName

/-- The single nested-method argument: the first path parameter, or
"id" when the parameter list is empty. -/
def paramOf (pi : PathInfo) : String :=
  let p0 := pi.pathParams.headD ""
  if p0 == "" then "id" else p0

/-- The request URL of a no-operationId resource member: only the first
occurrence of the first parameter's placeholder is substituted; every
other placeholder stays verbatim. -/
def resourceUrlOf (pi : PathInfo) : String :=
  jsReplaceOnce pi.path ("\x7b" ++ paramOf pi ++ "\x7d") ("$\x7b" ++ paramOf pi ++ "\x7d")

/-- The request URL of a direct (operationId) member: each path
parameter substituted once, in parameter order. -/
def directUrlOf (pi : PathInfo) : String :=
  pi.pathParams.foldl
    (fun u param => jsReplaceOnce u ("\x7b" ++ param ++ "\x7d") ("$\x7b" ++ param ++ "\x7d"))
    pi.path

/-- jsdoc block at one-space indent (curried resource members). -/
def jsdoc1 (fallback : String) (op : Json) (secs : List String) : String :=
  "/**\n" ++
  " * " ++ (if truthy (fieldOf op "summary") then jsToString (fieldOf op "summary") else fallback) ++ "\n" ++
  (if truthy (fieldOf op "description") then " * " ++ jsToString (fieldOf op "description") ++ "\n" else "") ++
  (if secs.length > 0 then " * @requires " ++ strIntercalate ", " secs ++ "\n" else "") ++
  " */\n"

/-- jsdoc block at the six/seven-space indent of nested members. -/
def jsdoc7 (fallback : String) (op : Json) (secs : List String) : String :=
  "      /**\n" ++
  "       * " ++ (if truthy (fieldOf op "summary") then jsToString (fieldOf op "summary") else fallback) ++ "\n" ++
  (if truthy (fieldOf op "description") then "       * " ++ jsToString (fieldOf op "description") ++ "\n" else "") ++
  (if secs.length > 0 then "       * @requires " ++ strIntercalate ", " secs ++ "\n" else "") ++
  "       */\n"

/-- jsdoc block at the four/five-space indent of direct members. -/
def jsdoc5 (fallback : String) (op : Json) (secs : List String) : String :=
  "    /**\n" ++
  "     * " ++ (if truthy (fieldOf op "summary") then jsToString (fieldOf op "summary") else fallback) ++ "\n" ++
  (if truthy (fieldOf op "description") then "     * " ++ jsToString (fieldOf op "description") ++ "\n" else "") ++
  (if secs.length > 0 then "     * @requires " ++ strIntercalate ", " secs ++ "\n" else "") ++
  "     */\n"

/-- Shape of the no-operationId resource GET member: the argument is
`paramOf pi` and the request is issued through a nested `.get()`
member — `singular(id).get()`. -/
def nestedGetShape (n : String) (pi : PathInfo) (mn rt : String) (secs : List String) : String :=
  "    " ++ singularOf n ++ ": (" ++ paramOf pi ++ ": string) => (\x7b\n" ++
  jsdoc7 mn pi.operation secs ++
  "      " ++ mn ++ ": async (): Promise<ApiResponse<" ++ rt ++ ">> => \x7b\n" ++
  "        const response = await fetch(`$\x7bthis.config.baseUrl\x7d" ++ resourceUrlOf pi ++
    "`, \x7b\n" ++
  "          method: \x27" ++ strUpper pi.method ++ "\x27,\n" ++
  "          headers: this.config.headers,\n" ++
  "        \x7d);\n" ++
  "        \n" ++
  "        const data = await response.json();\n" ++
  "        return \x7b\n" ++
  "          data,\n" ++
  "          status: response.status,\n" ++
  "          statusText: response.statusText,\n" ++
  "        \x7d;\n" ++
  "      \x7d,\n" ++
  "    \x7d),\n"

/-- Shape of the no-operationId resource member with a request body:
the curried `singular: (id: string) => async (body) => ...` — a
two-step call `singular(id)(body)` with no nested `.data` member. -/
def curriedBodyShape (n : String) (pi : PathInfo) (rt reqT : String) (secs : List String) : String :=
  "    " ++ singularOf n ++ ": (" ++ paramOf pi ++ ": string) => " ++
  jsdoc1 n pi.operation secs ++
  "async (body: " ++ reqT ++ "): Promise<ApiResponse<" ++ rt ++ ">> => \x7b\n" ++
  "      const response = await fetch(`$\x7bthis.config.baseUrl\x7d" ++ resourceUrlOf pi ++
    "`, \x7b\n" ++
  "        method: \x27" ++ strUpper pi.method ++ "\x27,\n" ++
  "        headers: \x7b\n" ++
  "          \x27Content-Type\x27: \x27application/json\x27,\n" ++
  "          ...this.config.headers,\n" ++
  "        \x7d,\n" ++
  "        body: JSON.stringify(body),\n" ++
  "      \x7d);\n" ++
  "      \n" ++
  "      const data = await response.json();\n" ++
  "      return \x7b\n" ++
  "        data,\n" ++
  "        status: response.status,\n" ++
  "        statusText: response.statusText,\n" ++
  "      \x7d;\n" ++
  "    \x7d,\n"

/-- Shape of the no-operationId resource DELETE member (no request
body): the curried `singular: (id: string) => async () => ...` — a
two-step call `singular(id)()` with no nested `.delete` member. -/
def curriedDeleteShape (n : String) (pi : PathInfo) (secs : List String) : String :=
  "    " ++ singularOf n ++ ": (" ++ paramOf pi ++ ": string) => " ++
  jsdoc1 n pi.operation secs ++
  "async (): Promise<ApiResponse<void>> => \x7b\n" ++
  "      const response = await fetch(`$\x7bthis.config.baseUrl\x7d" ++ resourceUrlOf pi ++
    "`, \x7b\n" ++
  "        method: \x27" ++ strUpper pi.method ++ "\x27,\n" ++
  "        headers: this.config.headers,\n" ++
  "      \x7d);\n" ++
  "      \n" ++
  "      return \x7b\n" ++
  "        data: undefined,\n" ++
  "        status: response.status,\n" ++
  "        statusText: response.statusText,\n" ++
  "      \x7d;\n" ++
  "    \x7d,\n"

/-- Response handling of a direct member. -/
def directRespBlockOf (pi : PathInfo) (rt : String) : String :=
  if pi.method == "delete" && strOccurs rt "void" then
    "      return \x7b\n" ++
    "        data: undefined,\n" ++
    "        status: response.status,\n" ++
    "        statusText: response.statusText,\n" ++
    "      \x7d;\n"
  else
    "      const data = await response.json();\n" ++
    "      return \x7b\n" ++
    "        data,\n" ++
    "        status: response.status,\n" ++
    "        statusText: response.statusText,\n" ++
    "      \x7d;\n"

/-- Shape of a direct (operationId) resource member with a request
body: the curried `opName: (id: string) => async (body) => ...`. -/
def directCurriedBodyShape (pi : PathInfo) (mn rt reqT : String) (secs : List String) : String :=
  jsdoc5 mn pi.operation secs ++
  "    " ++ mn ++ ": (" ++ pi.pathParams.headD "" ++ ": string) => " ++
  "async (body: " ++ reqT ++ "): Promise<ApiResponse<" ++ rt ++ ">> => \x7b\n" ++
  "      const response = await fetch(`$\x7bthis.config.baseUrl\x7d" ++ directUrlOf pi ++
    "`, \x7b\n" ++
  "        method: \x27" ++ strUpper pi.method ++ "\x27,\n" ++
  "        headers: \x7b\n" ++
  "          \x27Content-Type\x27: \x27application/json\x27,\n" ++
  "          ...this.config.headers,\n" ++
  "        \x7d,\n" ++
  "        body: JSON.stringify(body),\n" ++
  "      \x7d);\n" ++
  "      \n" ++
  directRespBlockOf pi rt ++
  "    \x7d,\n"

/-- Shape of a direct (operationId) resource member without a request
body: the curried `opName: (id: string) => async () => ...`. -/
def directCurriedNoBodyShape (pi : PathInfo) (mn rt : String) (secs : List String) : String :=
  jsdoc5 mn pi.operation secs ++
  "    " ++ mn ++ ": (" ++ pi.pathParams.headD "" ++ ": string) => " ++
  "async (): Promise<ApiResponse<" ++ rt ++ ">> => \x7b\n" ++
  "      const response = await fetch(`$\x7bthis.config.baseUrl\x7d" ++ directUrlOf pi ++
    "`, \x7b\n" ++
  "        method: \x27" ++ strUpper pi.method ++ "\x27,\n" ++
  "        headers: this.config.headers,\n" ++
  "      \x7d);\n" ++
  "      \n" ++
  directRespBlockOf pi rt ++
  "    \x7d,\n"

/-- Shape of the no-operationId collection GET member without query
parameters: a direct `resource: async (params = {}) => ...`, callable
as `resource()`. -/
def collectionDirectGetShape (n : String) (pi : PathInfo) (rt qpt : String) (hasReq : Bool)
    (secs : List String) : String :=
  "    " ++ n ++ ": " ++
  jsdoc1 n pi.operation secs ++
  "async (params: " ++ qpt ++ (if hasReq then "" else " = \x7b\x7d") ++
    "): Promise<ApiResponse<" ++ rt ++ ">> => \x7b\n" ++
  "      " ++
  "const url = new URL(`$\x7bthis.config.baseUrl\x7d" ++ pi.path ++ "`);\n" ++
  "      Object.entries(params).forEach(([key, value]) => \x7b\n" ++
  "        if (value !== undefined) \x7b\n" ++
  "          url.searchParams.append(key, String(value));\n" ++
  "        \x7d\n" ++
  "      \x7d);\n" ++
  "        \n" ++
  "      const response = await fetch(url.toString(), \x7b\n" ++
  "        method: \x27" ++ strUpper pi.method ++ "\x27,\n" ++
  "        headers: this.config.headers,\n" ++
  "      \x7d);\n" ++
  "        \n" ++
  "      const data = await response.json();\n" ++
  "      return \x7b\n" ++
  "        data,\n" ++
  "        status: response.status,\n" ++
  "        statusText: response.statusText,\n" ++
  "      \x7d;\n" ++
  "    \x7d,\n"

end DenoSaur

namespace DenoSaur

/-! Branch evaluation lemmas: each emitter branch produces exactly its
shape. -/

theorem grm_get_eval (n : String) (pi : PathInfo) (api : OpenAPIData) (mn rt : String)
    (secs : List String)
    (hm : (pi.method == "get") = true)
    (h1 : getResponseType pi.operation = .ok rt)
    (h2 : getSecurityRequirements pi.operation api = .ok secs)
    (h4 : getMethodName pi.operation "get" = .ok mn) :
    generateResourceMethods n pi api = .ok (nestedGetShape n pi mn rt secs) := by
  unfold generateResourceMethods
  rw [h1, okBind, h2, okBind]
  simp only [hm, if_true]
  rw [h4, okBind]
  simp only [nestedGetShape, jsdoc7, singularOf, paramOf, resourceUrlOf, String.append_assoc]
  rfl

theorem grm_body_eval (n : String) (pi : PathInfo) (api : OpenAPIData) (rt reqT : String)
    (secs : List String)
    (hm : (pi.method == "get") = false)
    (hrb : truthy (fieldOf pi.operation "requestBody") = true)
    (h1 : getResponseType pi.operation = .ok rt)
    (h2 : getSecurityRequirements pi.operation api = .ok secs)
    (h3 : getRequestType pi.operation = .ok reqT) :
    generateResourceMethods n pi api = .ok (curriedBodyShape n pi rt reqT secs) := by
  unfold generateResourceMethods
  rw [h1, okBind, h2, okBind]
  simp only [hm, Bool.false_eq_true, if_false, hrb, if_true]
  rw [h3, okBind]
  simp only [curriedBodyShape, jsdoc1, singularOf, paramOf, resourceUrlOf, String.append_assoc]
  rfl

theorem grm_delete_eval (n : String) (pi : PathInfo) (api : OpenAPIData) (rt : String)
    (secs : List String)
    (hm : (pi.method == "get") = false)
    (hrb : truthy (fieldOf pi.operation "requestBody") = false)
    (hd : (pi.method == "delete") = true)
    (h1 : getResponseType pi.operation = .ok rt)
    (h2 : getSecurityRequirements pi.operation api = .ok secs) :
    generateResourceMethods n pi api = .ok (curriedDeleteShape n pi secs) := by
  unfold generateResourceMethods
  rw [h1, okBind, h2, okBind]
  simp only [hm, hrb, Bool.false_eq_true, if_false, hd, if_true]
  simp only [curriedDeleteShape, jsdoc1, singularOf, paramOf, resourceUrlOf, String.append_assoc]
  rfl

theorem grm_stub_eval (n : String) (pi : PathInfo) (api : OpenAPIData) (rt : String)
    (secs : List String)
    (hm : (pi.method == "get") = false)
    (hrb : truthy (fieldOf pi.operation "requestBody") = false)
    (hd : (pi.method == "delete") = false)
    (h1 : getResponseType pi.operation = .ok rt)
    (h2 : getSecurityRequirements pi.operation api = .ok secs) :
    generateResourceMethods n pi api = .ok ("    " ++ singularOf n ++ ": () => \x7b\x7d,\n") := by
  unfold generateResourceMethods
  rw [h1, okBind, h2, okBind]
  simp only [hm, hrb, hd, Bool.false_eq_true, if_false]
  simp only [singularOf, String.append_assoc]
  rfl

theorem gdm_body_eval (pi : PathInfo) (api : OpenAPIData) (p : String) (ps : List String)
    (mn rt reqT : String) (secs : List String)
    (hpp : pi.pathParams = p :: ps)
    (hmeth : (pi.method == "post" || pi.method == "put" || pi.method == "delete" ||
      pi.method == "patch") = true)
    (hrb : truthy (fieldOf pi.operation "requestBody") = true)
    (hmn : getMethodName pi.operation "" = .ok mn)
    (h1 : getResponseType pi.operation = .ok rt)
    (h2 : getSecurityRequirements pi.operation api = .ok secs)
    (h3 : getRequestType pi.operation = .ok reqT) :
    generateDirectMethod pi api = .ok (directCurriedBodyShape pi mn rt reqT secs) := by
  unfold generateDirectMethod
  rw [hmn, okBind, h1, okBind, h2, okBind]
  simp only [hpp, hmeth, hrb, List.length_cons, if_true, Nat.zero_lt_succ, decide_True,
    gt_iff_lt, Bool.and_self, Bool.true_and, Bool.and_true, if_true]
  rw [h3, okBind]
  simp only [okBind, pureBind]
  simp only [directCurriedBodyShape, jsdoc5, directUrlOf, directRespBlockOf, hpp,
    String.append_assoc]
  rfl

theorem gdm_nobody_eval (pi : PathInfo) (api : OpenAPIData) (p : String) (ps : List String)
    (mn rt : String) (secs : List String)
    (hpp : pi.pathParams = p :: ps)
    (hmeth : (pi.method == "post" || pi.method == "put" || pi.method == "delete" ||
      pi.method == "patch") = true)
    (hrb : truthy (fieldOf pi.operation "requestBody") = false)
    (hmn : getMethodName pi.operation "" = .ok mn)
    (h1 : getResponseType pi.operation = .ok rt)
    (h2 : getSecurityRequirements pi.operation api = .ok secs) :
    generateDirectMethod pi api = .ok (directCurriedNoBodyShape pi mn rt secs) := by
  unfold generateDirectMethod
  rw [hmn, okBind, h1, okBind, h2, okBind]
  simp only [hpp, hmeth, hrb, List.length_cons, if_true, Nat.zero_lt_succ, decide_True,
    gt_iff_lt, Bool.and_self, Bool.true_and, Bool.and_true, Bool.false_eq_true, if_false,
    if_true]
  simp only [okBind, pureBind]
  simp only [directCurriedNoBodyShape, jsdoc5, directUrlOf, directRespBlockOf, hpp,
    String.append_assoc]
  rfl

theorem gcm_direct_get_eval (n : String) (pi : PathInfo) (api : OpenAPIData)
    (rt qpt : String) (hreq : Bool) (secs : List String)
    (h0 : hasQueryParamsE pi.operation = .ok false)
    (hm : (pi.method == "get") = true)
    (hrb : truthy (fieldOf pi.operation "requestBody") = false)
    (h1 : getResponseType pi.operation = .ok rt)
    (h2 : getSecurityRequirements pi.operation api = .ok secs)
    (h3 : getQueryParamsType pi.operation = .ok (qpt, hreq)) :
    generateCollectionMethods n pi api = .ok (collectionDirectGetShape n pi rt qpt hreq secs) := by
  unfold generateCollectionMethods
  rw [h0, okBind]
  simp only [hm, if_true, hrb, Bool.false_eq_true, if_false]
  rw [h1, okBind]
  simp only [okBind, pureBind]
  rw [h2, okBind, h3, okBind]
  simp only [okBind, pureBind]
  simp only [collectionDirectGetShape, jsdoc1, String.append_assoc]
  rfl

end DenoSaur

namespace DenoSaur

/-! Concrete fixtures: the todos document of the spec's end-to-end
scenarios, assembled exactly as a parsed OpenAPI document would be. -/

/-- `{"$ref": "#/components/schemas/Todo"}`. -/
def todoRef : Json := Json.obj [("$ref", Json.str "#/components/schemas/Todo")]

/-- `{"$ref": "#/components/schemas/TodoInput"}`. -/
def todoInputRef : Json := Json.obj [("$ref", Json.str "#/components/schemas/TodoInput")]

/-- A 200 response whose JSON content carries the given schema. -/
def respOk (schema : Json) : Json :=
  Json.obj [("200", Json.obj [("content", Json.obj
    [("application/json", Json.obj [("schema", schema)])])])]

/-- A request body whose JSON content carries the given schema. -/
def reqBodyOf (schema : Json) : Json :=
  Json.obj [("content", Json.obj [("application/json", Json.obj [("schema", schema)])])]

/-- GET operation of `/todos` (no operationId, no parameters). -/
def getTodosOp : Json := Json.obj [("responses", respOk todoRef)]

/-- GET operation of `/todos/{id}` (no operationId). -/
def getTodoOp : Json := Json.obj [("responses", respOk todoRef)]

/-- PUT operation of `/todos/{id}` (request body, no operationId). -/
def putTodoOp : Json :=
  Json.obj [("requestBody", reqBodyOf todoInputRef), ("responses", respOk todoRef)]

/-- DELETE operation of `/todos/{id}` (no operationId, 204 response). -/
def delTodoOp : Json := Json.obj [("responses", Json.obj [("204", Json.obj [])])]

/-- PUT operation with operationId `updateTodo` and a request body. -/
def putTodoOpId : Json :=
  Json.obj [("operationId", Json.str "updateTodo"),
    ("requestBody", reqBodyOf todoInputRef), ("responses", respOk todoRef)]

/-- DELETE operation with operationId `deleteTodo` and no request body. -/
def delTodoOpId : Json :=
  Json.obj [("operationId", Json.str "deleteTodo"), ("responses", Json.obj [("204", Json.obj [])])]

/-- PUT operation with operationId `updateTodo` and NO request body. -/
def putNoBodyOpId : Json := Json.obj [("operationId", Json.str "updateTodo")]

/-- A bare operation: no operationId, no request body, no responses. -/
def bareOp : Json := Json.obj []

/-- A document with no paths, no servers, no security and empty
components. -/
def emptyApi : OpenAPIData :=
  { servers := Json.undef, paths := Json.obj [], security := Json.undef,
    components := Json.obj [] }

/-- `PathInfo` of `("/todos", "get", getTodosOp)`. -/
def getTodosPI : PathInfo := analyzePath "/todos" "get" getTodosOp

/-- `PathInfo` of `("/todos/{id}", "get", getTodoOp)`. -/
def getTodoPI : PathInfo := analyzePath "/todos/\x7bid\x7d" "get" getTodoOp

/-- `PathInfo` of `("/todos/{id}", "put", putTodoOp)`. -/
def putTodoPI : PathInfo := analyzePath "/todos/\x7bid\x7d" "put" putTodoOp

/-- `PathInfo` of `("/todos/{id}", "delete", delTodoOp)`. -/
def delTodoPI : PathInfo := analyzePath "/todos/\x7bid\x7d" "delete" delTodoOp

/-- `PathInfo` of `("/todos/{id}", "put", putTodoOpId)`. -/
def putTodoOpIdPI : PathInfo := analyzePath "/todos/\x7bid\x7d" "put" putTodoOpId

/-- `PathInfo` of `("/todos/{id}", "delete", delTodoOpId)`. -/
def delTodoOpIdPI : PathInfo := analyzePath "/todos/\x7bid\x7d" "delete" delTodoOpId

/-- `PathInfo` of `("/todos/{id}", "put", putNoBodyOpId)`: a bodyless
PUT carrying an operationId. -/
def putNoBodyOpIdPI : PathInfo := analyzePath "/todos/\x7bid\x7d" "put" putNoBodyOpId

/-- `PathInfo` of `("/todos/{id}", "post", bareOp)`: a bodyless POST
without operationId. -/
def postNoBodyPI : PathInfo := analyzePath "/todos/\x7bid\x7d" "post" bareOp

/-- `PathInfo` of a two-placeholder template
`("/todos/{id}/items/{itemId}", "get", bareOp)`. -/
def twoParamGetPI : PathInfo := analyzePath "/todos/\x7bid\x7d/items/\x7bitemId\x7d" "get" bareOp

/-! Evaluation of the schema resolver and per-operation helpers on the
fixtures. -/

theorem cst_todoRef : convertSchemaToType todoRef = .ok "Todo" := by
  rw [show todoRef = Json.obj [("$ref", Json.str "#/components/schemas/Todo")] from rfl]
  simp only [convertSchemaToType, convertObjSchema]
  decide

theorem cst_todoInputRef : convertSchemaToType todoInputRef = .ok "TodoInput" := by
  rw [show todoInputRef = Json.obj [("$ref", Json.str "#/components/schemas/TodoInput")] from rfl]
  simp only [convertSchemaToType, convertObjSchema]
  decide

theorem gresp_getTodos : getResponseType getTodosOp = .ok "Todo" := by
  rw [show getResponseType getTodosOp = convertSchemaToType todoRef from rfl, cst_todoRef]

theorem gresp_getTodo : getResponseType getTodoOp = .ok "Todo" := by
  rw [show getResponseType getTodoOp = convertSchemaToType todoRef from rfl, cst_todoRef]

theorem gresp_putTodo : getResponseType putTodoOp = .ok "Todo" := by
  rw [show getResponseType putTodoOp = convertSchemaToType todoRef from rfl, cst_todoRef]

theorem grt_put : getRequestType putTodoOp = .ok "TodoInput" := by
  rw [show getRequestType putTodoOp = convertSchemaToType todoInputRef from rfl,
    cst_todoInputRef]

theorem gresp_put_opid : getResponseType putTodoOpId = .ok "Todo" := by
  rw [show getResponseType putTodoOpId = convertSchemaToType todoRef from rfl, cst_todoRef]

theorem grt_put_opid : getRequestType putTodoOpId = .ok "TodoInput" := by
  rw [show getRequestType putTodoOpId = convertSchemaToType todoInputRef from rfl,
    cst_todoInputRef]

end DenoSaur

namespace DenoSaur

/-! Claim C1. -/

/-- C1 counterexample: for the no-operationId `/todos/{id}` endpoints
the client does NOT expose `put.todo(id).data(body)` or
`delete.todo(id).delete()` as the claim states: the emitted `put`
member has no `data:` sub-member and the emitted `delete` member has no
`delete:` sub-member; both are curried — `todo: (id: string) =>`
followed directly by the `async` function taking the body
(respectively no argument). -/
theorem C1_counterexample :
    strOccurs (exOk (generateResourceMethods "todos" putTodoPI emptyApi)) "data: async" = false ∧
    strOccurs (exOk (generateResourceMethods "todos" putTodoPI emptyApi)) "todo: (id: string) => " = true ∧
    strOccurs (exOk (generateResourceMethods "todos" putTodoPI emptyApi)) "async (body: TodoInput)" = true ∧
    strOccurs (exOk (generateResourceMethods "todos" delTodoPI emptyApi)) "delete: async" = false ∧
    strOccurs (exOk (generateResourceMethods "todos" delTodoPI emptyApi)) "todo: (id: string) => " = true ∧
    strOccurs (exOk (generateResourceMethods "todos" delTodoPI emptyApi)) "async (): Promise<ApiResponse<void>>" = true := by
  have hput : generateResourceMethods "todos" putTodoPI emptyApi =
      .ok (curriedBodyShape "todos" putTodoPI "Todo" "TodoInput" []) :=
    grm_body_eval "todos" putTodoPI emptyApi "Todo" "TodoInput" []
      (by decide) (by decide) (by exact gresp_putTodo) (by decide) (by exact grt_put)
  have hdel : generateResourceMethods "todos" delTodoPI emptyApi =
      .ok (curriedDeleteShape "todos" delTodoPI []) :=
    grm_delete_eval "todos" delTodoPI emptyApi "any" []
      (by decide) (by decide) (by decide) (by decide) (by decide)
  rw [hput, hdel]
  decide

/-- C1 (amended): for resource-shaped endpoints without an
operation-identifier, GET produces the nested keyed-by-id
`resource(id).get()` member and the collection GET without query
parameters produces the direct `resource()` member, exactly as the
claim states; but an operation with a request body produces the
curried `resource(id)(body)` member (not `resource(id).data(body)`),
and DELETE produces the curried `resource(id)()` member (not
`resource(id).delete()`). -/
theorem C1_resource_method_shapes :
    (∀ (n : String) (pi : PathInfo) (api : OpenAPIData) (mn rt : String) (secs : List String),
      (pi.method == "get") = true →
      getResponseType pi.operation = .ok rt →
      getSecurityRequirements pi.operation api = .ok secs →
      getMethodName pi.operation "get" = .ok mn →
      generateResourceMethods n pi api = .ok (nestedGetShape n pi mn rt secs)) ∧
    (∀ (n : String) (pi : PathInfo) (api : OpenAPIData) (rt reqT : String) (secs : List String),
      (pi.method == "get") = false →
      truthy (fieldOf pi.operation "requestBody") = true →
      getResponseType pi.operation = .ok rt →
      getSecurityRequirements pi.operation api = .ok secs →
      getRequestType pi.operation = .ok reqT →
      generateResourceMethods n pi api = .ok (curriedBodyShape n pi rt reqT secs)) ∧
    (∀ (n : String) (pi : PathInfo) (api : OpenAPIData) (rt : String) (secs : List String),
      (pi.method == "get") = false →
      truthy (fieldOf pi.operation "requestBody") = false →
      (pi.method == "delete") = true →
      getResponseType pi.operation = .ok rt →
      getSecurityRequirements pi.operation api = .ok secs →
      generateResourceMethods n pi api = .ok (curriedDeleteShape n pi secs)) ∧
    (∀ (n : String) (pi : PathInfo) (api : OpenAPIData) (rt qpt : String) (hreq : Bool)
        (secs : List String),
      hasQueryParamsE pi.operation = .ok false →
      (pi.method == "get") = true →
      truthy (fieldOf pi.operation "requestBody") = false →
      getResponseType pi.operation = .ok rt →
      getSecurityRequirements pi.operation api = .ok secs →
      getQueryParamsType pi.operation = .ok (qpt, hreq) →
      generateCollectionMethods n pi api = .ok (collectionDirectGetShape n pi rt qpt hreq secs)) :=
  ⟨fun n pi api mn rt secs hm h1 h2 h4 => grm_get_eval n pi api mn rt secs hm h1 h2 h4,
   fun n pi api rt reqT secs hm hrb h1 h2 h3 => grm_body_eval n pi api rt reqT secs hm hrb h1 h2 h3,
   fun n pi api rt secs hm hrb hd h1 h2 => grm_delete_eval n pi api rt secs hm hrb hd h1 h2,
   fun n pi api rt qpt hreq secs h0 hm hrb h1 h2 h3 =>
     gcm_direct_get_eval n pi api rt qpt hreq secs h0 hm hrb h1 h2 h3⟩

/-- C1 witness: the four shapes instantiated on the todos scenario —
`get.todos()`, `get.todo(id).get()`, curried `put.todo(id)(body)` and
curried `delete.todo(id)()`. -/
theorem C1_witness :
    generateResourceMethods "todos" getTodoPI emptyApi =
      .ok (nestedGetShape "todos" getTodoPI "get" "Todo" []) ∧
    generateResourceMethods "todos" putTodoPI emptyApi =
      .ok (curriedBodyShape "todos" putTodoPI "Todo" "TodoInput" []) ∧
    generateResourceMethods "todos" delTodoPI emptyApi =
      .ok (curriedDeleteShape "todos" delTodoPI []) ∧
    generateCollectionMethods "todos" getTodosPI emptyApi =
      .ok (collectionDirectGetShape "todos" getTodosPI "Todo" "QueryParams" false []) :=
  ⟨C1_resource_method_shapes.1 "todos" getTodoPI emptyApi "get" "Todo" []
      (by decide) (by exact gresp_getTodo) (by decide) (by decide),
   C1_resource_method_shapes.2.1 "todos" putTodoPI emptyApi "Todo" "TodoInput" []
      (by decide) (by decide) (by exact gresp_putTodo) (by decide) (by exact grt_put),
   C1_resource_method_shapes.2.2.1 "todos" delTodoPI emptyApi "any" []
      (by decide) (by decide) (by decide) (by decide) (by decide),
   C1_resource_method_shapes.2.2.2 "todos" getTodosPI emptyApi "Todo" "QueryParams" false []
      (by decide) (by decide) (by decide) (by exact gresp_getTodos) (by decide) (by decide)⟩

end DenoSaur

namespace DenoSaur

/-! Claim C2. -/

/-- C2 counterexample: a resource-shaped PUT with operationId
`updateTodo` but no declared request body is emitted as
`updatetodo: (id: string) => async (): ...` — the second step takes no
argument, although the claim's only no-argument case is DELETE without
a request body. -/
theorem C2_counterexample :
    strOccurs (exOk (generateDirectMethod putNoBodyOpIdPI emptyApi))
      "updatetodo: (id: string) => async ():" = true ∧
    strOccurs (exOk (generateDirectMethod putNoBodyOpIdPI emptyApi)) "async (body" = false := by
  have h : generateDirectMethod putNoBodyOpIdPI emptyApi =
      .ok (directCurriedNoBodyShape putNoBodyOpIdPI "updatetodo" "any" []) :=
    gdm_nobody_eval putNoBodyOpIdPI emptyApi "id" [] "updatetodo" "any" []
      (by decide) (by decide) (by decide) (by decide) (by decide) (by decide)
  rw [h]
  decide

/-- C2 (amended): for every resource-shaped endpoint (path parameters
present) whose verb is POST, PUT, PATCH or DELETE, the direct emitter
produces the curried two-step member `opName(id)` returning a function
that takes the body when a request body is declared and no argument
when none is declared — for any of the four verbs, not only DELETE. -/
theorem C2_direct_curried_shapes :
    (∀ (pi : PathInfo) (api : OpenAPIData) (p : String) (ps : List String)
        (mn rt reqT : String) (secs : List String),
      pi.pathParams = p :: ps →
      (pi.method == "post" || pi.method == "put" || pi.method == "delete" ||
        pi.method == "patch") = true →
      truthy (fieldOf pi.operation "requestBody") = true →
      getMethodName pi.operation "" = .ok mn →
      getResponseType pi.operation = .ok rt →
      getSecurityRequirements pi.operation api = .ok secs →
      getRequestType pi.operation = .ok reqT →
      generateDirectMethod pi api = .ok (directCurriedBodyShape pi mn rt reqT secs)) ∧
    (∀ (pi : PathInfo) (api : OpenAPIData) (p : String) (ps : List String)
        (mn rt : String) (secs : List String),
      pi.pathParams = p :: ps →
      (pi.method == "post" || pi.method == "put" || pi.method == "delete" ||
        pi.method == "patch") = true →
      truthy (fieldOf pi.operation "requestBody") = false →
      getMethodName pi.operation "" = .ok mn →
      getResponseType pi.operation = .ok rt →
      getSecurityRequirements pi.operation api = .ok secs →
      generateDirectMethod pi api = .ok (directCurriedNoBodyShape pi mn rt secs)) :=
  ⟨fun pi api p ps mn rt reqT secs hpp hmeth hrb hmn h1 h2 h3 =>
      gdm_body_eval pi api p ps mn rt reqT secs hpp hmeth hrb hmn h1 h2 h3,
   fun pi api p ps mn rt secs hpp hmeth hrb hmn h1 h2 =>
      gdm_nobody_eval pi api p ps mn rt secs hpp hmeth hrb hmn h1 h2⟩

/-- C2 witness: with operationIds `updateTodo` and `deleteTodo` on
`/todos/{id}` the client exposes the curried `put.updatetodo(id)(body)`
and `delete.deletetodo(id)()`. -/
theorem C2_witness :
    generateDirectMethod putTodoOpIdPI emptyApi =
      .ok (directCurriedBodyShape putTodoOpIdPI "updatetodo" "Todo" "TodoInput" []) ∧
    generateDirectMethod delTodoOpIdPI emptyApi =
      .ok (directCurriedNoBodyShape delTodoOpIdPI "deletetodo" "any" []) :=
  ⟨C2_direct_curried_shapes.1 putTodoOpIdPI emptyApi "id" [] "updatetodo" "Todo" "TodoInput" []
      (by decide) (by decide) (by decide) (by decide)
      (by exact gresp_put_opid) (by decide) (by exact grt_put_opid),
   C2_direct_curried_shapes.2 delTodoOpIdPI emptyApi "id" [] "deletetodo" "any" []
      (by decide) (by decide) (by decide) (by decide) (by decide) (by decide)⟩

/-! Claim C10. -/

/-- C10 counterexample: a resource-shaped bodyless POST without an
operation-identifier is emitted as the zero-argument stub
`todo: () => {}` — it does not take the path parameter as an argument
and substitutes nothing. -/
theorem C10_counterexample :
    generateResourceMethods "todos" postNoBodyPI emptyApi = .ok "    todo: () => \x7b\x7d,\n" ∧
    strOccurs "    todo: () => \x7b\x7d,\n" ": string" = false := by
  refine ⟨?_, by decide⟩
  have h := grm_stub_eval "todos" postNoBodyPI emptyApi "any" []
    (by decide) (by decide) (by decide) (by decide) (by decide)
  rw [h]
  rfl

/-- C10 (amended): on the GET, request-body and DELETE shapes the
nested member takes exactly one string argument — the first path
parameter, or "id" when the parameter list is empty — and only the
first occurrence of that parameter's placeholder is substituted, any
later placeholder remaining verbatim in the emitted URL; but on a
resource-shaped operation of any other verb without a request body the
emitter produces the zero-argument stub `singular: () => {}`. -/
theorem C10_nested_argument_and_url :
    (∀ pi : PathInfo, pi.pathParams = [] → paramOf pi = "id") ∧
    (∀ (pi : PathInfo) (p : String) (ps : List String),
      pi.pathParams = p :: ps → (p == "") = false → paramOf pi = p) ∧
    (∀ (n : String) (pi : PathInfo) (api : OpenAPIData) (rt : String) (secs : List String),
      (pi.method == "get") = false →
      truthy (fieldOf pi.operation "requestBody") = false →
      (pi.method == "delete") = false →
      getResponseType pi.operation = .ok rt →
      getSecurityRequirements pi.operation api = .ok secs →
      generateResourceMethods n pi api = .ok ("    " ++ singularOf n ++ ": () => \x7b\x7d,\n")) ∧
    (generateResourceMethods "todos" twoParamGetPI emptyApi =
      .ok (nestedGetShape "todos" twoParamGetPI "get" "any" []) ∧
     resourceUrlOf twoParamGetPI = "/todos/$\x7bid\x7d/items/\x7bitemId\x7d" ∧
     strOccurs (nestedGetShape "todos" twoParamGetPI "get" "any" []) "(id: string)" = true ∧
     strOccurs (nestedGetShape "todos" twoParamGetPI "get" "any" []) "itemId: string" = false ∧
     strOccurs (nestedGetShape "todos" twoParamGetPI "get" "any" []) "$\x7bitemId\x7d" = false ∧
     strOccurs (nestedGetShape "todos" twoParamGetPI "get" "any" []) "/items/\x7bitemId\x7d" = true) := by
  refine ⟨?_, ?_, ?_, ?_, by decide, by decide, by decide, by decide, by decide⟩
  · intro pi h
    simp [paramOf, h]
  · intro pi p ps h hp
    simp [paramOf, h, List.headD, hp]
  · exact fun n pi api rt secs hm hrb hd h1 h2 =>
      grm_stub_eval n pi api rt secs hm hrb hd h1 h2
  · exact grm_get_eval "todos" twoParamGetPI emptyApi "get" "any" []
      (by decide) (by decide) (by decide) (by decide)

/-- C10 witness: the universal parts instantiated — an unterminated
placeholder yields parameter list `[]` and argument name "id"; the
`/todos/{id}` parameter list yields argument name "id" from the
template; and the zero-argument stub on a bodyless resource-shaped
PATCH. -/
theorem C10_witness :
    paramOf (analyzePath "/todos/\x7bid" "delete" bareOp) = "id" ∧
    paramOf putTodoPI = "id" ∧
    generateResourceMethods "things" (analyzePath "/things/\x7bkey\x7d" "patch" bareOp) emptyApi =
      .ok "    thing: () => \x7b\x7d,\n" :=
  ⟨C10_nested_argument_and_url.1 (analyzePath "/todos/\x7bid" "delete" bareOp) (by decide),
   C10_nested_argument_and_url.2.1 putTodoPI "id" [] (by decide) (by decide),
   C10_nested_argument_and_url.2.2.1 "things" (analyzePath "/things/\x7bkey\x7d" "patch" bareOp)
     emptyApi "any" [] (by decide) (by decide) (by decide) (by decide) (by decide)⟩

end DenoSaur

namespace DenoSaur

/-! Claim C5: the method-name resolver. -/

theorem str_empty_append (s : String) : "" ++ s = s := by
  cases s with
  | mk l => rfl

theorem splitGo_ne_nil (sep : List Char) (cs : List Char) (k : Nat) : splitGo sep cs k ≠ [] := by
  induction cs generalizing k with
  | nil => simp [splitGo]
  | cons c rest ih =>
    cases k with
    | succ k2 => simpa [splitGo] using ih k2
    | zero =>
      simp only [splitGo]
      by_cases h : charsPrefix sep (c :: rest) = true
      · simp [h]
      · simp only [h, Bool.false_eq_true, if_false]
        cases hs : splitGo sep rest 0 with
        | nil => exact absurd hs (ih 0)
        | cons a b => simp

theorem mapIdxFrom_succ_cap (ws : List String) (i : Nat) :
    mapIdxFrom (fun i w => if i == 0 then strLower w else jsCapitalize w) (i + 1) ws =
      ws.map jsCapitalize := by
  induction ws generalizing i with
  | nil => rfl
  | cons w rest ih =>
    simp only [mapIdxFrom, List.map_cons]
    rw [show ((i + 1 == 0) : Bool) = false from rfl]
    simp only [Bool.false_eq_true, if_false]
    rw [ih]

theorem strConcat_cap_filter (ws : List String) :
    strConcat ((ws.filter fun w => w != "").map jsCapitalize) = strConcat (ws.map jsCapitalize) := by
  induction ws with
  | nil => rfl
  | cons w rest ih =>
    by_cases h : w = ""
    · subst h
      simp only [List.filter, bne_self_eq_false, List.map_cons, strConcat]
      rw [ih, show jsCapitalize "" = "" from rfl, str_empty_append]
    · have hb : (w != "") = true := by simp [h]
      simp only [List.filter, hb, List.map_cons, strConcat]
      rw [ih]

/-- The spec-described name derivation: split at non-alphanumerics,
DISCARD empty fragments, lower-case the first fragment entirely and
capitalize the rest. -/
def specCamelDiscard (s : String) : String :=
  let replaced := String.mk (s.data.map fun c => if c.isAlphanum then c else ' ')
  match (jsSplit replaced " ").filter fun w => w != "" with
  | [] => ""
  | f :: rest => strLower f ++ strConcat (rest.map jsCapitalize)

theorem camel_discard_eq (s : String) (c : Char) (cs : List Char)
    (hd : s.data = c :: cs) (hc : c.isAlphanum = true) :
    camelOfOperationId s = specCamelDiscard s := by
  have hsp : (' ' == c) = false := by
    cases hbe : (' ' == c) with
    | false => rfl
    | true =>
      have he : ' ' = c := eq_of_beq hbe
      rw [← he] at hc
      simp at hc
  have hrep : (String.mk (s.data.map fun d => if d.isAlphanum then d else ' ')).data =
      c :: (cs.map fun d => if d.isAlphanum then d else ' ') := by
    rw [hd]
    simp [hc]
  obtain ⟨a, b, hab⟩ : ∃ a b, splitGo [' '] (cs.map fun d => if d.isAlphanum then d else ' ') 0 =
      a :: b := by
    cases hs : splitGo [' '] (cs.map fun d => if d.isAlphanum then d else ' ') 0 with
    | nil => exact absurd hs (splitGo_ne_nil _ _ _)
    | cons a b => exact ⟨a, b, rfl⟩
  have hsplit : jsSplit (String.mk (s.data.map fun d => if d.isAlphanum then d else ' ')) " " =
      String.mk (c :: a) :: b.map String.mk := by
    show (splitGo [' ']
        (String.mk (s.data.map fun d => if d.isAlphanum then d else ' ')).data 0).map String.mk =
      _
    rw [hrep]
    simp only [splitGo, charsPrefix, hsp, Bool.false_and, Bool.false_eq_true, if_false, hab]
    simp [List.map_cons]
  have hne : (String.mk (c :: a) != "") = true := rfl
  unfold camelOfOperationId specCamelDiscard
  simp only [hsplit, mapIdxFrom, List.filter, hne, strConcat]
  rw [mapIdxFrom_succ_cap, strConcat_cap_filter]
  rfl

/-- C5 counterexample: with operationId "_x" (beginning with a
non-alphanumeric) the resolver returns "X" — the first non-empty
fragment is capitalized, not lower-cased as the claim's
discard-empty-fragments description demands ("x"). -/
theorem C5_counterexample :
    getMethodName (Json.obj [("operationId", Json.str "_x")]) "fallback" = .ok "X" ∧
    getMethodName (Json.obj [("operationId", Json.str "_x")]) "fallback" ≠ .ok "x" := by
  decide

/-- C5 (amended): the resolver splits the identifier at every
non-alphanumeric character but KEEPS empty fragments, each contributing
nothing; fragment 0 is fully lower-cased and every later fragment is
capitalized.  For identifiers beginning with an alphanumeric character
this coincides with the claim's discard-empty-fragments description
(lowerCamelCase output); for identifiers beginning with a
non-alphanumeric character fragment 0 is empty, so the first non-empty
fragment is capitalized instead ("_x" becomes "X").  Without a declared
(or with an empty-string) operation-identifier the fallback is returned
unchanged. -/
theorem C5_method_name_resolution :
    (∀ (op : Json) (fb : String), truthy (fieldOf op "operationId") = false →
      getMethodName op fb = .ok fb) ∧
    (∀ (s fb : String), (s == "") = false →
      getMethodName (Json.obj [("operationId", Json.str s)]) fb = .ok (camelOfOperationId s)) ∧
    (∀ (s : String) (c : Char) (cs : List Char), s.data = c :: cs → c.isAlphanum = true →
      camelOfOperationId s = specCamelDiscard s) ∧
    camelOfOperationId "updateTodo" = "updatetodo" ∧
    camelOfOperationId "get-todo-by-id" = "getTodoById" ∧
    camelOfOperationId "_x" = "X" := by
  refine ⟨?_, ?_, camel_discard_eq, by decide, by decide, by decide⟩
  · intro op fb h
    simp [getMethodName, h]
  · intro s fb h
    have hne2 : (s != "") = true := by simp [bne, h]
    simp [getMethodName, fieldOf, lookupField, truthy, hne2]

/-- C5 witness: the universal parts instantiated — no operationId on a
bare operation returns the fallback unchanged; "get-todo-by-id" resolves
through the camel-casing, which equals the discard-description for this
alphanumeric-initial identifier. -/
theorem C5_witness :
    getMethodName bareOp "queryParams" = .ok "queryParams" ∧
    getMethodName (Json.obj [("operationId", Json.str "get-todo-by-id")]) "x" =
      .ok (camelOfOperationId "get-todo-by-id") ∧
    camelOfOperationId "get-todo-by-id" = specCamelDiscard "get-todo-by-id" :=
  ⟨C5_method_name_resolution.1 bareOp "queryParams" (by decide),
   C5_method_name_resolution.2.1 "get-todo-by-id" "x" (by decide),
   C5_method_name_resolution.2.2.1 "get-todo-by-id" 'g' "et-todo-by-id".data
     (by decide) (by decide)⟩

end DenoSaur

namespace DenoSaur

/-! Claim C8: the security resolver. -/

theorem secEntries_congr (api1 api2 : OpenAPIData) (h : api1.components = api2.components) :
    ∀ l, secEntries api1 l = secEntries api2 l := by
  intro l
  induction l with
  | nil => rfl
  | cons e rest ih =>
    rcases e with ⟨name, scopes⟩
    simp only [secEntries, h, ih]

theorem secLoop_congr (api1 api2 : OpenAPIData) (h : api1.components = api2.components) :
    ∀ l, secLoop api1 l = secLoop api2 l := by
  intro l
  induction l with
  | nil => rfl
  | cons req rest ih =>
    simp only [secLoop, ih, secEntries_congr api1 api2 h]

/-- Operation with `security: [{basicAuth: []}]`. -/
def basicOp : Json :=
  Json.obj [("security", Json.arr [Json.obj [("basicAuth", Json.arr [])]])]

/-- Document registering `basicAuth` as an `http`/`basic` scheme. -/
def basicApi : OpenAPIData :=
  { servers := Json.undef, paths := Json.obj [], security := Json.undef,
    components := Json.obj [("securitySchemes", Json.obj
      [("basicAuth", Json.obj [("type", Json.str "http"), ("scheme", Json.str "basic")])])] }

/-- Document whose GLOBAL security list is `[\x7bbasicAuth: []\x7d]`,
with the same scheme registry as `basicApi`. -/
def globalBasicApi : OpenAPIData :=
  { servers := Json.undef, paths := Json.obj [],
    security := Json.arr [Json.obj [("basicAuth", Json.arr [])]],
    components := basicApi.components }

/-- C8: the operation's own security list wins whenever one is declared
(a declared empty list yields no requirements instead of falling back,
and the document's global list is then ignored); when the operation
declares none, the document's global security list is the one consumed
(conjunct 6 reduces the resolver to `secLoop` over exactly the global
list's items, and conjunct 8 renders "Basic Authentication" from a
purely global requirement); when neither exists the result is empty;
scheme names missing from the registry are skipped without an error;
and `[\x7bbasicAuth: []\x7d]` against a registered `http`/`basic`
scheme renders exactly "Basic Authentication". -/
theorem C8_security_resolution :
    (∀ (op : Json) (api : OpenAPIData), fieldOf op "security" = Json.arr [] →
      getSecurityRequirements op api = .ok []) ∧
    (∀ (op : Json) (xs : List Json) (sv pv se1 se2 cm : Json),
      fieldOf op "security" = Json.arr xs →
      getSecurityRequirements op ⟨sv, pv, se1, cm⟩ =
        getSecurityRequirements op ⟨sv, pv, se2, cm⟩) ∧
    (∀ (op1 op2 : Json) (api : OpenAPIData),
      truthy (fieldOf op1 "security") = false →
      truthy (fieldOf op2 "security") = false →
      getSecurityRequirements op1 api = getSecurityRequirements op2 api) ∧
    (∀ (op : Json) (api : OpenAPIData),
      truthy (fieldOf op "security") = false →
      truthy api.security = false →
      getSecurityRequirements op api = .ok []) ∧
    (∀ (api : OpenAPIData) (name : String) (scopes : Json) (rest : List (String × Json)),
      truthy (optField (optField api.components "securitySchemes") name) = false →
      secEntries api ((name, scopes) :: rest) = secEntries api rest) ∧
    (∀ (op : Json) (api : OpenAPIData) (xs : List Json),
      truthy (fieldOf op "security") = false →
      api.security = Json.arr xs →
      getSecurityRequirements op api = secLoop api xs) ∧
    getSecurityRequirements basicOp basicApi = .ok ["Basic Authentication"] ∧
    getSecurityRequirements bareOp globalBasicApi = .ok ["Basic Authentication"] := by
  refine ⟨?_, ?_, ?_, ?_, ?_, ?_, by decide, by decide⟩
  · intro op api h
    simp [getSecurityRequirements, h, jsOr, truthy, iterE, secLoop, okBind]
  · intro op xs sv pv se1 se2 cm h
    simp only [getSecurityRequirements, h, jsOr, truthy, if_true]
    have hcong : secLoop ⟨sv, pv, se1, cm⟩ = secLoop ⟨sv, pv, se2, cm⟩ :=
      funext fun l => secLoop_congr ⟨sv, pv, se1, cm⟩ ⟨sv, pv, se2, cm⟩ rfl l
    rw [hcong]
  · intro op1 op2 api h1 h2
    simp only [getSecurityRequirements, jsOr, h1, h2, Bool.false_eq_true, if_false]
  · intro op api h1 h2
    simp [getSecurityRequirements, jsOr, h1, h2, iterE, secLoop, okBind]
  · intro api name scopes rest h
    simp [secEntries, h]
  · intro op api xs h1 h2
    simp only [getSecurityRequirements, jsOr, h2]
    simp only [h1, Bool.false_eq_true, if_false]
    simp only [truthy, if_true, iterE, okBind]

/-- C8 witness: each universal part instantiated on the basic-auth
fixtures; in particular the global-fallback part reduces `bareOp`
against `globalBasicApi` to the loop over the global requirement. -/
theorem C8_witness :
    getSecurityRequirements (Json.obj [("security", Json.arr [])]) basicApi = .ok [] ∧
    getSecurityRequirements basicOp ⟨Json.undef, Json.obj [], Json.undef, basicApi.components⟩ =
      getSecurityRequirements basicOp ⟨Json.undef, Json.obj [],
        Json.arr [Json.obj [("other", Json.arr [])]], basicApi.components⟩ ∧
    getSecurityRequirements bareOp basicApi = getSecurityRequirements putTodoOp basicApi ∧
    getSecurityRequirements bareOp emptyApi = .ok [] ∧
    secEntries basicApi [("missing", Json.arr [])] = secEntries basicApi [] ∧
    getSecurityRequirements bareOp globalBasicApi =
      secLoop globalBasicApi [Json.obj [("basicAuth", Json.arr [])]] :=
  ⟨C8_security_resolution.1 (Json.obj [("security", Json.arr [])]) basicApi (by rfl),
   C8_security_resolution.2.1 basicOp [Json.obj [("basicAuth", Json.arr [])]]
     Json.undef (Json.obj []) Json.undef
     (Json.arr [Json.obj [("other", Json.arr [])]]) basicApi.components (by rfl),
   C8_security_resolution.2.2.1 bareOp putTodoOp basicApi (by decide) (by decide),
   C8_security_resolution.2.2.2.1 bareOp emptyApi (by decide) (by decide),
   C8_security_resolution.2.2.2.2.1 basicApi "missing" (Json.arr []) [] (by decide),
   C8_security_resolution.2.2.2.2.2.1 bareOp globalBasicApi
     [Json.obj [("basicAuth", Json.arr [])]] (by decide) (by rfl)⟩

end DenoSaur

namespace DenoSaur

/-! Claim C3: totality of the two schema resolvers. -/

/-- Plain (non-array) JavaScript objects. -/
def isPlainObject : Json → Bool
  | .obj _ => true
  | _ => false

/-- C3 counterexample: the type-generator's resolver raises a TypeError
on `null` input, and the client generator's resolver raises on a schema
whose `$ref` holds a (truthy) number — neither resolver is total on
"every input whatsoever" as the claim states. -/
theorem C3_counterexample :
    TypeGen.convertSchemaToType Json.null =
      .error "TypeError: cannot read properties of null" ∧
    convertSchemaToType (Json.obj [("$ref", Json.num 1)]) =
      .error "TypeError: split is not a function" := by
  constructor
  · rw [TypeGen.convertSchemaToType.eq_def]
    rfl
  · simp only [convertSchemaToType, convertObjSchema]
    decide

/-- C3 (amended): the client generator's resolver yields "any" without
error on every non-object input (null, undefined, primitives, arrays)
and on every object presenting none of the recognized fields; the
type-generator's resolver does the same except that it raises a
TypeError on null/undefined input; and neither resolver is total on
malformed recognized fields — a truthy non-string `$ref` raises in
both, as does a truthy non-array `enum` in the client resolver. -/
theorem C3_resolver_totality :
    (∀ j : Json, isPlainObject j = false → convertSchemaToType j = .ok "any") ∧
    (∀ j : Json, isPlainObject j = false → j ≠ Json.null → j ≠ Json.undef →
      TypeGen.convertSchemaToType j = .ok "any") ∧
    ((∃ e, TypeGen.convertSchemaToType Json.null = .error e) ∧
     (∃ e, TypeGen.convertSchemaToType Json.undef = .error e)) ∧
    (∀ fs : List (String × Json),
      lookupField fs "$ref" = Json.undef →
      lookupField fs "anyOf" = Json.undef →
      lookupField fs "oneOf" = Json.undef →
      lookupField fs "allOf" = Json.undef →
      lookupField fs "type" = Json.undef →
      lookupField fs "enum" = Json.undef →
      convertSchemaToType (Json.obj fs) = .ok "any") ∧
    (∀ fs : List (String × Json),
      lookupField fs "$ref" = Json.undef →
      lookupField fs "type" = Json.undef →
      lookupField fs "enum" = Json.undef →
      TypeGen.convertSchemaToType (Json.obj fs) = .ok "any") ∧
    ((∃ e, convertSchemaToType (Json.obj [("$ref", Json.num 1)]) = .error e) ∧
     (∃ e, TypeGen.convertSchemaToType (Json.obj [("$ref", Json.num 1)]) = .error e) ∧
     (∃ e, convertSchemaToType (Json.obj [("enum", Json.num 5)]) = .error e)) := by
  refine ⟨?_, ?_,
    ⟨⟨"TypeError: cannot read properties of null", ?_⟩,
     ⟨"TypeError: cannot read properties of undefined", ?_⟩⟩, ?_, ?_,
    ⟨"TypeError: split is not a function", ?_⟩,
    ⟨"TypeError: split is not a function", ?_⟩,
    ⟨"TypeError: map is not a function", ?_⟩⟩
  · intro j h
    cases j with
    | obj fs => simp [isPlainObject] at h
    | undef => simp [convertSchemaToType]
    | null => simp [convertSchemaToType]
    | bool b => simp [convertSchemaToType]
    | num n => simp [convertSchemaToType]
    | str s => simp [convertSchemaToType]
    | arr xs => simp [convertSchemaToType]
  · intro j h hn hu
    cases j with
    | obj fs => simp [isPlainObject] at h
    | undef => exact absurd rfl hu
    | null => exact absurd rfl hn
    | bool b => rw [TypeGen.convertSchemaToType.eq_def]; rfl
    | num n => rw [TypeGen.convertSchemaToType.eq_def]; rfl
    | str s => rw [TypeGen.convertSchemaToType.eq_def]; rfl
    | arr xs => rw [TypeGen.convertSchemaToType.eq_def]; rfl
  · rw [TypeGen.convertSchemaToType.eq_def]
    rfl
  · rw [TypeGen.convertSchemaToType.eq_def]
    rfl
  · intro fs h1 h2 h3 h4 h5 h6
    simp [convertSchemaToType, convertObjSchema, h1, h2, h3, h4, h5, h6, truthy]
  · intro fs h1 h2 h3
    rw [TypeGen.convertSchemaToType.eq_def]
    simp [getFieldE, fieldOf, h1, h2, h3, truthy, okBind, pureBind]
    rfl
  · simp only [convertSchemaToType, convertObjSchema]
    decide
  · rw [TypeGen.convertSchemaToType.eq_def]
    rfl
  · simp only [convertSchemaToType, convertObjSchema]
    decide

/-- C3 witness: the universal parts instantiated — a string input and a
number input resolve to "any" in both resolvers, as does an object with
only a `title` field. -/
theorem C3_witness :
    convertSchemaToType (Json.str "x") = .ok "any" ∧
    TypeGen.convertSchemaToType (Json.num 3) = .ok "any" ∧
    convertSchemaToType (Json.obj [("title", Json.str "t")]) = .ok "any" ∧
    TypeGen.convertSchemaToType (Json.obj [("title", Json.str "t")]) = .ok "any" :=
  ⟨C3_resolver_totality.1 (Json.str "x") (by decide),
   C3_resolver_totality.2.1 (Json.num 3) (by decide) (fun h => by cases h) (fun h => by cases h),
   C3_resolver_totality.2.2.2.1 [("title", Json.str "t")]
     (by rfl) (by rfl) (by rfl) (by rfl) (by rfl) (by rfl),
   C3_resolver_totality.2.2.2.2.1 [("title", Json.str "t")] (by rfl) (by rfl) (by rfl)⟩

/-- Evaluation of the type-generator resolver on the plain string
schema, used to reduce interface renderings at concrete inputs. -/
theorem tg_cst_string :
    TypeGen.convertSchemaToType (Json.obj [("type", Json.str "string")]) = .ok "string" := by
  rw [TypeGen.convertSchemaToType.eq_def]
  rfl

/-- C4 counterexample: `generateInterface` of type-generators.ts writes
the property name `taxonomy/id` verbatim into the emitted interface,
with no quoting — the claim says the type-declaration emitter quotes
non-bare names just as the client resolver (whose `escapeName` indeed
quotes this name) does. -/
theorem C4_counterexample :
    TypeGen.generateInterface "Tax"
        (Json.obj [("type", Json.str "object"),
          ("properties", Json.obj [("taxonomy/id", Json.obj [("type", Json.str "string")])])]) =
      .ok ("export interface Tax \x7b\n  taxonomy/id?: string;\n\x7d") ∧
    escapeName "taxonomy/id" = "\"taxonomy/id\"" := by
  constructor
  · simp only [TypeGen.generateInterface, TypeGen.interfaceProps, getFieldE, fieldOf,
      lookupField, entriesOf, jsOptIncludes, okBind, pureBind, tg_cst_string, truthy]
    decide
  · decide

/-- C4 (amended): the client resolver renders each `properties` entry in
insertion order as escaped-name, optional marker iff the name is absent
from the `required` array (strict equality), and the recursively
resolved type; `escapeName` leaves bare identifiers alone and quotes all
other names; but `interfaceProps` of the type-declaration emitter writes
every property name verbatim, quoted or not, with the same
insertion-order and optional-marker rule. -/
theorem C4_property_rendering :
    (∀ (req : List Json) (n : String) (s : Json) (rest : List (String × Json))
        (t : String) (ts : List String),
      convertSchemaToType s = .ok t →
      convertPropsList (Json.arr req) rest = .ok ts →
      convertPropsList (Json.arr req) ((n, s) :: rest) =
        .ok ((escapeName n ++ (if req.any fun v => strictEqStr v n then "" else "?") ++
          ": " ++ t) :: ts)) ∧
    (∀ n : String, isBareIdent n = true → escapeName n = n) ∧
    (∀ n : String, isBareIdent n = false → escapeName n = "\"" ++ n ++ "\"") ∧
    (∀ (req : List Json) (n : String) (s : Json) (rest : List (String × Json))
        (t : String) (ts : String),
      TypeGen.convertSchemaToType s = .ok t →
      TypeGen.interfaceProps (Json.arr req) rest = .ok ts →
      TypeGen.interfaceProps (Json.arr req) ((n, s) :: rest) =
        .ok ("  " ++ n ++ (if req.any fun v => strictEqStr v n then "" else "?") ++
          ": " ++ t ++ ";\n" ++ ts)) := by
  refine ⟨?_, ?_, ?_, ?_⟩
  · intro req n s rest t ts hs hr
    simp only [convertPropsList, jsOptIncludes, okBind, pureBind, hs, hr]
  · intro n h
    simp only [escapeName, h, if_true]
  · intro n h
    simp only [escapeName, h, Bool.false_eq_true, if_false]
  · intro req n s rest t ts hs hr
    simp only [TypeGen.interfaceProps, jsOptIncludes, okBind, pureBind, hs, hr]

/-- C4 witness: on property name `taxonomy/id` with an empty `required`
array the client resolver renders the quoted optional member while the
type-declaration emitter renders it unquoted. -/
theorem C4_witness :
    convertPropsList (Json.arr []) [("taxonomy/id", Json.obj [("type", Json.str "string")])] =
      .ok ["\"taxonomy/id\"?: string"] ∧
    TypeGen.interfaceProps (Json.arr []) [("taxonomy/id", Json.obj [("type", Json.str "string")])] =
      .ok "  taxonomy/id?: string;\n" := by
  constructor
  · have h := C4_property_rendering.1 [] "taxonomy/id" (Json.obj [("type", Json.str "string")])
      [] "string" []
      (by simp only [convertSchemaToType, convertObjSchema]; decide)
      (by simp only [convertPropsList])
    rw [h]
    decide
  · have h := C4_property_rendering.2.2.2 [] "taxonomy/id" (Json.obj [("type", Json.str "string")])
      [] "string" ""
      (by rw [TypeGen.convertSchemaToType.eq_def]; rfl)
      (by rfl)
    rw [h]
    decide

/-- C6: the guard of `createTypesFromApiData` is `schemas == undefined`,
and an EMPTY schema collection `\x7b\x7d` is not loosely equal to
`undefined` — so for a document carrying an empty collection the
emitter returns the nonempty timestamped header instead of the empty
string, the caller then writes a types artifact, and the repository's
own test `createTypesFromApiData - no schemas` (which asserts the empty
string on exactly this input) fails; an absent or `null` collection does
return the empty string as claimed. -/
theorem C6_empty_schemas_not_empty_output :
    TypeGen.createTypesFromApiData "T"
        ⟨Json.undef, Json.undef, Json.undef, Json.obj [("schemas", Json.obj [])]⟩ =
      .ok (TypeGen.typesHeader "T") ∧
    TypeGen.typesHeader "T" ≠ "" ∧
    TypeGen.createTypesFromApiData "T" ⟨Json.undef, Json.undef, Json.undef, Json.obj []⟩ =
      .ok "" ∧
    TypeGen.createTypesFromApiData "T"
        ⟨Json.undef, Json.undef, Json.undef, Json.obj [("schemas", Json.null)]⟩ =
      .ok "" := by
  refine ⟨?_, ?_, ?_, ?_⟩ <;> decide

/-! Claim C7: the auto-import set.  General Except-inversion helpers,
an accumulator-growth relation for `setAdd`, and a union-response
fixture. -/

/-- Inversion of a successful `Except` bind. -/
theorem exBind_ok {A B : Type} {x : Except String A} {f : A → Except String B} {b : B} :
    x >>= f = .ok b ↔ ∃ a, x = .ok a ∧ f a = .ok b := by
  cases x with
  | error e => simp [Bind.bind, Except.bind]
  | ok a => simp [Bind.bind, Except.bind]

/-- Inversion of a successful `Except` pure. -/
theorem exPure_ok {A : Type} {a b : A} :
    (pure a : Except String A) = .ok b ↔ a = b := by
  simp [pure, Except.pure]

/-- Lists reachable from an accumulator through `Set.prototype.add`
steps only; `extractUsedTypes` accumulators grow exactly this way. -/
inductive SetAddReach : List String → List String → Prop
  | refl (l : List String) : SetAddReach l l
  | step (l m : List String) (x : String) : SetAddReach l m → SetAddReach l (setAdd m x)

/-- `setAdd` keeps an accumulator duplicate-free. -/
theorem setAdd_nodup {l : List String} {x : String} (h : l.Nodup) : (setAdd l x).Nodup := by
  unfold setAdd
  split
  · exact h
  · next hc =>
    refine List.Nodup.append h (List.nodup_singleton x) ?_
    intro a ha hax
    rw [List.mem_singleton] at hax
    subst hax
    simp [List.elem_eq_mem, ha] at hc

/-- Membership after a `setAdd`. -/
theorem mem_setAdd {l : List String} {x y : String} : y ∈ setAdd l x ↔ y ∈ l ∨ y = x := by
  unfold setAdd
  split
  · next hc =>
    constructor
    · exact Or.inl
    · rintro (h | h)
      · exact h
      · subst h
        simpa [List.elem_eq_mem] using hc
  · simp [List.mem_append]

/-- Reachability transports duplicate-freedom. -/
theorem reach_nodup {l m : List String} (h : SetAddReach l m) (hn : l.Nodup) :
    m.Nodup := by
  induction h with
  | refl => exact hn
  | step m x prev ih => exact setAdd_nodup ih

/-- Reachability preserves membership. -/
theorem reach_mem {l m : List String} {y : String} (h : SetAddReach l m) (hy : y ∈ l) :
    y ∈ m := by
  induction h with
  | refl => exact hy
  | step m x prev ih => exact mem_setAdd.mpr (Or.inl ih)

/-- Reachability composes. -/
theorem reach_trans {a b c : List String} (h1 : SetAddReach a b) (h2 : SetAddReach b c) :
    SetAddReach a c := by
  induction h2 with
  | refl => exact h1
  | step m x prev ih => exact .step _ _ x ih

/-- The request-type collection step grows the set by at most one
entry. -/
theorem reach_reqAdd (m : List String) (rq : String) :
    SetAddReach m
      (if ((if strOccurs rq "[]" = true then jsReplaceOnce rq "[]" "" else rq) != "" &&
          (if strOccurs rq "[]" = true then jsReplaceOnce rq "[]" "" else rq) != "any") = true then
        setAdd m (if strOccurs rq "[]" = true then jsReplaceOnce rq "[]" "" else rq)
      else m) := by
  split
  · split
    · exact .step _ _ _ (.refl m)
    · exact .refl m
  · split
    · exact .step _ _ _ (.refl m)
    · exact .refl m

/-- The response-type collection step grows the set by at most one
entry. -/
theorem reach_respAdd (m : List String) (rt : String) :
    SetAddReach m
      (if (rt != "" && rt != "any" && !strOccurs rt "\x7b") = true then
        if strOccurs rt "[]" = true then
          if (jsReplaceOnce rt "[]" "" != "" && jsReplaceOnce rt "[]" "" != "any") = true then
            setAdd m (jsReplaceOnce rt "[]" "")
          else m
        else setAdd m rt
      else m) := by
  split
  · split
    · split
      · exact .step _ _ _ (.refl m)
      · exact .refl m
    · exact .step _ _ _ (.refl m)
  · exact .refl m

/-- The collection loop only ever `setAdd`s onto its accumulator. -/
theorem extractUsedTypesLoop_reach :
    ∀ (pis : List PathInfo) (acc l : List String),
      extractUsedTypesLoop pis acc = .ok l → SetAddReach acc l := by
  intro pis
  induction pis with
  | nil =>
    intro acc l h
    simp only [extractUsedTypesLoop] at h
    cases h
    exact .refl _
  | cons pi rest ih =>
    intro acc l h
    simp only [extractUsedTypesLoop] at h
    split at h
    · rw [exBind_ok] at h
      obtain ⟨rq, hq, h⟩ := h
      split at h
      · rw [exBind_ok] at h
        obtain ⟨y, hy, h⟩ := h
        rw [exPure_ok] at hy
        rw [exBind_ok] at h
        obtain ⟨rt, hrt, h⟩ := h
        subst hy
        exact reach_trans (reach_trans (reach_reqAdd acc rq) (reach_respAdd _ rt)) (ih _ _ h)
      · rw [exBind_ok] at h
        obtain ⟨y, hy, h⟩ := h
        rw [exPure_ok] at hy
        rw [exBind_ok] at h
        obtain ⟨rt, hrt, h⟩ := h
        subst hy
        exact reach_trans (reach_respAdd acc rt) (ih _ _ h)
    · rw [exBind_ok] at h
      obtain ⟨y, hy, h⟩ := h
      rw [exPure_ok] at hy
      rw [exBind_ok] at h
      obtain ⟨rt, hrt, h⟩ := h
      subst hy
      exact reach_trans (reach_respAdd acc rt) (ih _ _ h)

/-- Folding schema names in through `setAdd` is a reachability step
chain. -/
theorem foldl_setAdd_reach (ps : List (String × Json)) (acc : List String) :
    SetAddReach acc (ps.foldl (fun a p => setAdd a p.1) acc) := by
  induction ps generalizing acc with
  | nil => exact .refl acc
  | cons p rest ih =>
    simp only [List.foldl_cons]
    exact reach_trans (.step _ _ _ (.refl acc)) (ih _)

/-- Every schema name ends up in the folded accumulator. -/
theorem mem_foldl_setAdd {ps : List (String × Json)} {acc : List String} {nm : String}
    (h : nm ∈ ps.map Prod.fst) : nm ∈ ps.foldl (fun a p => setAdd a p.1) acc := by
  induction ps generalizing acc with
  | nil => cases h
  | cons p rest ih =>
    simp only [List.map_cons, List.mem_cons] at h
    simp only [List.foldl_cons]
    rcases h with h | h
    · subst h
      exact reach_mem (foldl_setAdd_reach rest _) (mem_setAdd.mpr (Or.inr rfl))
    · exact ih h

/-- `{"$ref": "#/components/schemas/Foo"}`. -/
def fooRefJ : Json := Json.obj [("$ref", Json.str "#/components/schemas/Foo")]

/-- `{"$ref": "#/components/schemas/Bar"}`. -/
def barRefJ : Json := Json.obj [("$ref", Json.str "#/components/schemas/Bar")]

/-- `{"anyOf": [fooRefJ, barRefJ]}` — a response schema resolving
to the union of two named schemas. -/
def unionSchema : Json := Json.obj [("anyOf", Json.arr [fooRefJ, barRefJ])]

/-- GET operation whose 200 response carries the union schema. -/
def unionOp : Json := Json.obj [("responses", respOk unionSchema)]

/-- `PathInfo` of `("/foos", "get", unionOp)`. -/
def unionPI : PathInfo := analyzePath "/foos" "get" unionOp

/-- A document with only the union path and no components. -/
def unionApi : OpenAPIData :=
  { servers := Json.undef, paths := Json.obj [], security := Json.undef,
    components := Json.undef }

theorem cst_fooRef : convertSchemaToType fooRefJ = .ok "Foo" := by
  rw [show fooRefJ = Json.obj [("$ref", Json.str "#/components/schemas/Foo")] from rfl]
  simp only [convertSchemaToType, convertObjSchema]
  decide

theorem cst_barRef : convertSchemaToType barRefJ = .ok "Bar" := by
  rw [show barRefJ = Json.obj [("$ref", Json.str "#/components/schemas/Bar")] from rfl]
  simp only [convertSchemaToType, convertObjSchema]
  decide

theorem csl_union : convertSchemaList [fooRefJ, barRefJ] = .ok ["Foo", "Bar"] := by
  simp only [convertSchemaList, cst_fooRef, cst_barRef, okBind, pureBind]

theorem cst_unionSchema : convertSchemaToType unionSchema = .ok "Foo | Bar" := by
  rw [show unionSchema = Json.obj [("anyOf", Json.arr [fooRefJ, barRefJ])] from rfl]
  simp [convertSchemaToType, convertObjSchema, lookupField, truthy, csl_union, Except.map]
  decide

theorem gresp_union : getResponseType unionOp = .ok "Foo | Bar" := by
  rw [show getResponseType unionOp = convertSchemaToType unionSchema from rfl, cst_unionSchema]

/-- The request-side collection step of `extractUsedTypes`
(lines 22-31): empty, "any" and inline (brace-containing) expressions
are skipped; the first "[]" occurrence is stripped before adding. -/
def reqCollect (acc : List String) (requestType : String) : List String :=
  if requestType != "" && requestType != "any" && !(strOccurs requestType "\x7b") then
    let baseType := if strOccurs requestType "[]" then
        jsReplaceOnce requestType "[]" ""
      else requestType
    if baseType != "" && baseType != "any" then setAdd acc baseType else acc
  else acc

/-- The response-side collection step of `extractUsedTypes`
(lines 35-48). -/
def respCollect (acc : List String) (responseType : String) : List String :=
  if responseType != "" && responseType != "any" && !(strOccurs responseType "\x7b") then
    if strOccurs responseType "[]" then
      let baseType := jsReplaceOnce responseType "[]" ""
      if baseType != "" && baseType != "any" then setAdd acc baseType else acc
    else setAdd acc responseType
  else acc

/-- One loop iteration with no request body is exactly the
response-side collection step. -/
theorem loop_step_nobody (pi : PathInfo) (rest : List PathInfo) (acc : List String)
    (rt : String)
    (hreq : truthy (fieldOf pi.operation "requestBody") = false)
    (hresp : getResponseType pi.operation = .ok rt) :
    extractUsedTypesLoop (pi :: rest) acc = extractUsedTypesLoop rest (respCollect acc rt) := by
  simp only [extractUsedTypesLoop, hreq, Bool.false_eq_true, if_false, pureBind, hresp,
    okBind, respCollect]

/-- One loop iteration with a request body is the request-side step
followed by the response-side step. -/
theorem loop_step_body (pi : PathInfo) (rest : List PathInfo) (acc : List String)
    (rq rt : String)
    (hreq : truthy (fieldOf pi.operation "requestBody") = true)
    (hq : getRequestType pi.operation = .ok rq)
    (hresp : getResponseType pi.operation = .ok rt) :
    extractUsedTypesLoop (pi :: rest) acc =
      extractUsedTypesLoop rest (respCollect (reqCollect acc rq) rt) := by
  simp only [extractUsedTypesLoop, hreq, if_true, hq, okBind]
  split
  · next hc =>
    simp only [pureBind, hresp, okBind, respCollect, reqCollect]
    rw [if_pos hc]
  · next hc =>
    simp only [pureBind, hresp, okBind, respCollect, reqCollect]
    rw [if_neg hc]

/-- Skipped expressions: empty, "any" and inline records. -/
theorem respCollect_skip (acc : List String) (rt : String)
    (h : rt = "" ∨ rt = "any" ∨ strOccurs rt "\x7b" = true) : respCollect acc rt = acc := by
  rcases h with h | h | h
  · subst h
    simp [respCollect]
  · subst h
    simp [respCollect]
  · simp [respCollect, h]

/-- Collected names without "[]" are added verbatim. -/
theorem respCollect_verbatim (acc : List String) (rt : String)
    (h : (rt != "" && rt != "any" && !(strOccurs rt "\x7b")) = true)
    (hno : strOccurs rt "[]" = false) : respCollect acc rt = setAdd acc rt := by
  simp only [respCollect, h, if_true, hno, Bool.false_eq_true, if_false]

/-- Array expressions lose exactly their first "[]" occurrence (the
single `String.replace` of line 40). -/
theorem respCollect_strip (acc : List String) (rt : String)
    (h : (rt != "" && rt != "any" && !(strOccurs rt "\x7b")) = true)
    (hyes : strOccurs rt "[]" = true)
    (hbase : (jsReplaceOnce rt "[]" "" != "" && jsReplaceOnce rt "[]" "" != "any") = true) :
    respCollect acc rt = setAdd acc (jsReplaceOnce rt "[]" "") := by
  simp only [respCollect, h, if_true, hyes, hbase]

/-- Array-of-Todo response schema
`\x7btype: "array", items: todoRef\x7d`. -/
def todoArrSchema : Json := Json.obj [("type", Json.str "array"), ("items", todoRef)]

/-- GET operation whose 200 response is the Todo array. -/
def arrOp : Json := Json.obj [("responses", respOk todoArrSchema)]

/-- `PathInfo` of `("/todos", "get", arrOp)`. -/
def arrPI : PathInfo := analyzePath "/todos" "get" arrOp

/-- Inline object response schema with a single string property. -/
def inlineSchema : Json :=
  Json.obj [("type", Json.str "object"),
    ("properties", Json.obj [("a", Json.obj [("type", Json.str "string")])])]

/-- GET operation whose 200 response is the inline object. -/
def inlineOp : Json := Json.obj [("responses", respOk inlineSchema)]

/-- `PathInfo` of `("/things", "get", inlineOp)`. -/
def inlinePI : PathInfo := analyzePath "/things" "get" inlineOp

/-- `PathInfo` of `("/misc", "get", bareOp)` — its response type
resolves to "any". -/
def anyPI : PathInfo := analyzePath "/misc" "get" bareOp

theorem cst_strSchema :
    convertSchemaToType (Json.obj [("type", Json.str "string")]) = .ok "string" := by
  simp only [convertSchemaToType, convertObjSchema]
  decide

theorem cst_todoArr : convertSchemaToType todoArrSchema = .ok "Todo[]" := by
  rw [show todoArrSchema = Json.obj [("type", Json.str "array"), ("items", todoRef)] from rfl]
  simp [convertSchemaToType, convertObjSchema, lookupField, truthy, cst_todoRef, Except.map]
  decide

theorem gresp_arr : getResponseType arrOp = .ok "Todo[]" := by
  rw [show getResponseType arrOp = convertSchemaToType todoArrSchema from rfl, cst_todoArr]

theorem cpl_inline :
    convertPropsList Json.undef [("a", Json.obj [("type", Json.str "string")])] =
      .ok ["a?: string"] := by
  simp only [convertPropsList, jsOptIncludes, okBind, pureBind, cst_strSchema]
  decide

theorem cst_inline : convertSchemaToType inlineSchema = .ok "\x7b a?: string \x7d" := by
  rw [show inlineSchema = Json.obj [("type", Json.str "object"),
    ("properties", Json.obj [("a", Json.obj [("type", Json.str "string")])])] from rfl]
  simp [convertSchemaToType, convertObjSchema, lookupField, truthy, entriesOf,
    cpl_inline, Except.map]
  decide

theorem gresp_inline : getResponseType inlineOp = .ok "\x7b a?: string \x7d" := by
  rw [show getResponseType inlineOp = convertSchemaToType inlineSchema from rfl, cst_inline]

theorem gresp_any : getResponseType bareOp = .ok "any" := rfl

/-- Evaluation of `extractUsedTypes` on the union fixture: the union
expression is collected verbatim, never split at `|`. -/
theorem c7_eval : extractUsedTypes [unionPI] unionApi = .ok ["Foo | Bar"] := by
  have hop : unionPI.operation = unionOp := rfl
  simp only [extractUsedTypes, extractUsedTypesLoop, hop, gresp_union, okBind, pureBind]
  decide

/-- C7 counterexample: a response resolving to the union `Foo | Bar` of
two named schemas contributes the single compound entry "Foo | Bar" to
the import set — neither base name appears individually, so the claim
that both base names are contributed individually after stripping union
markers fails. -/
theorem C7_counterexample :
    extractUsedTypes [unionPI] unionApi = .ok ["Foo | Bar"] ∧
    "Foo" ∉ (["Foo | Bar"] : List String) ∧
    "Bar" ∉ (["Foo | Bar"] : List String) :=
  ⟨c7_eval, by decide, by decide⟩

/-- C7 (amended): a successful import set is sorted and de-duplicated,
contains no built-in primitive type name, and contains every declared
schema-registry name that is not a built-in.  The collection loop is
exactly the per-operation `reqCollect`/`respCollect` steps (conjuncts
2-3), which skip empty, "any" and inline (brace-containing)
expressions (conjunct 4), add everything else verbatim — unions
included, never split into base names (conjunct 5, and the
counterexample) — except that array expressions lose exactly their
FIRST "[]" occurrence (conjunct 6; conjunct 7 shows the second "[]" of
"Todo[][]" surviving). -/
theorem C7_import_set :
    (∀ (pathInfos : List PathInfo) (apiData : OpenAPIData) (l : List String),
      extractUsedTypes pathInfos apiData = .ok l →
      l.Sorted (fun a b : String => a ≤ b) ∧
      l.Nodup ∧
      (∀ t, t ∈ builtInTypes → t ∉ l) ∧
      (truthy (optField apiData.components "schemas") = true →
        ∀ nm, nm ∈ (entriesOf (optField apiData.components "schemas")).map Prod.fst →
          nm ∉ builtInTypes → nm ∈ l)) ∧
    (∀ (pi : PathInfo) (rest : List PathInfo) (acc : List String) (rt : String),
      truthy (fieldOf pi.operation "requestBody") = false →
      getResponseType pi.operation = .ok rt →
      extractUsedTypesLoop (pi :: rest) acc = extractUsedTypesLoop rest (respCollect acc rt)) ∧
    (∀ (pi : PathInfo) (rest : List PathInfo) (acc : List String) (rq rt : String),
      truthy (fieldOf pi.operation "requestBody") = true →
      getRequestType pi.operation = .ok rq →
      getResponseType pi.operation = .ok rt →
      extractUsedTypesLoop (pi :: rest) acc =
        extractUsedTypesLoop rest (respCollect (reqCollect acc rq) rt)) ∧
    (∀ (acc : List String) (rt : String),
      rt = "" ∨ rt = "any" ∨ strOccurs rt "\x7b" = true → respCollect acc rt = acc) ∧
    (∀ (acc : List String) (rt : String),
      (rt != "" && rt != "any" && !(strOccurs rt "\x7b")) = true →
      strOccurs rt "[]" = false → respCollect acc rt = setAdd acc rt) ∧
    (∀ (acc : List String) (rt : String),
      (rt != "" && rt != "any" && !(strOccurs rt "\x7b")) = true →
      strOccurs rt "[]" = true →
      (jsReplaceOnce rt "[]" "" != "" && jsReplaceOnce rt "[]" "" != "any") = true →
      respCollect acc rt = setAdd acc (jsReplaceOnce rt "[]" "")) ∧
    jsReplaceOnce "Todo[][]" "[]" "" = "Todo[]" := by
  refine ⟨?_, loop_step_nobody, loop_step_body, respCollect_skip, respCollect_verbatim,
    respCollect_strip, by decide⟩
  intro pis api l h
  simp only [extractUsedTypes] at h
  rw [exBind_ok] at h
  obtain ⟨used, hu, h⟩ := h
  simp only [exPure_ok] at h
  subst h
  refine ⟨List.sorted_insertionSort _ _, ?_, ?_, ?_⟩
  · refine (List.Perm.nodup_iff (List.perm_insertionSort _ _)).mpr (List.Nodup.filter _ ?_)
    split
    · exact reach_nodup (reach_trans (extractUsedTypesLoop_reach pis [] used hu)
        (foldl_setAdd_reach _ _)) List.nodup_nil
    · exact reach_nodup (extractUsedTypesLoop_reach pis [] used hu) List.nodup_nil
  · intro t ht hmem
    rw [List.mem_insertionSort, List.mem_filter] at hmem
    have hcontains := hmem.2
    simp [List.elem_eq_mem, ht] at hcontains
  · intro htr nm hnm hnb
    rw [List.mem_insertionSort, List.mem_filter]
    refine ⟨?_, ?_⟩
    · rw [if_pos htr]
      exact mem_foldl_setAdd hnm
    · simp [List.elem_eq_mem, hnb]

/-- C7 witness: the amended properties at concrete fixtures — the
union import list is sorted, duplicate-free and excludes the built-in
"any"; a Todo-array response contributes "Todo" (first "[]" stripped);
an inline-record response and an "any" response contribute nothing; and
"Todo[][]" is collected as "Todo[]", its second "[]" surviving. -/
theorem C7_witness :
    (["Foo | Bar"] : List String).Sorted (fun a b : String => a ≤ b) ∧
    (["Foo | Bar"] : List String).Nodup ∧
    "any" ∉ (["Foo | Bar"] : List String) ∧
    extractUsedTypesLoop [arrPI] [] = .ok ["Todo"] ∧
    extractUsedTypesLoop [inlinePI] [] = .ok [] ∧
    extractUsedTypesLoop [anyPI] [] = .ok [] ∧
    respCollect [] "Todo[][]" = ["Todo[]"] := by
  refine ⟨?_, ?_, ?_, ?_, ?_, ?_, ?_⟩
  · exact (C7_import_set.1 [unionPI] unionApi ["Foo | Bar"] c7_eval).1
  · exact (C7_import_set.1 [unionPI] unionApi ["Foo | Bar"] c7_eval).2.1
  · exact (C7_import_set.1 [unionPI] unionApi ["Foo | Bar"] c7_eval).2.2.1 "any" (by decide)
  · rw [C7_import_set.2.1 arrPI [] [] "Todo[]" (by decide) gresp_arr]
    simp only [extractUsedTypesLoop]
    decide
  · rw [C7_import_set.2.1 inlinePI [] [] "\x7b a?: string \x7d" (by decide) gresp_inline]
    simp only [extractUsedTypesLoop]
    decide
  · rw [C7_import_set.2.1 anyPI [] [] "any" (by decide) gresp_any]
    simp only [extractUsedTypesLoop]
    decide
  · rw [C7_import_set.2.2.2.2.2.1 [] "Todo[][]" (by decide) (by decide) (by decide)]
    decide

/-- A bind on an error short-circuits. -/
theorem errBind {A B C : Type} (e : A) (f : B → Except A C) :
    (Except.error e : Except A B) >>= f = .error e := rfl

/-- C9: both generators are deterministic functions of the document and
the generation timestamp `now`; on two runs with timestamps `n1`, `n2`
over the same document the outputs are byte-identical up to the single
embedded timestamp — either both succeed with outputs differing only in
the interpolated timestamp (common prefix `a` and suffix `b`), or the
two runs return identical results (including the failure cases). -/
theorem C9_two_run_determinism :
    ∀ (apiData : OpenAPIData) (n1 n2 : String),
      ((∃ a b, TypeGen.createTypesFromApiData n1 apiData = .ok (a ++ n1 ++ b) ∧
               TypeGen.createTypesFromApiData n2 apiData = .ok (a ++ n2 ++ b)) ∨
        TypeGen.createTypesFromApiData n1 apiData = TypeGen.createTypesFromApiData n2 apiData) ∧
      ((∃ a b, generateClientFromOpenAPI n1 apiData = .ok (a ++ n1 ++ b) ∧
               generateClientFromOpenAPI n2 apiData = .ok (a ++ n2 ++ b)) ∨
        generateClientFromOpenAPI n1 apiData = generateClientFromOpenAPI n2 apiData) := by
  intro api n1 n2
  constructor
  · cases hs : getFieldE api.components "schemas" with
    | error e =>
      right
      simp only [TypeGen.createTypesFromApiData, hs, errBind]
    | ok schemas =>
      cases hu : looseUndef schemas with
      | true =>
        right
        simp only [TypeGen.createTypesFromApiData, hs, okBind, hu, if_true]
      | false =>
        cases hd : TypeGen.typeDefsList (entriesOf schemas) with
        | error e =>
          right
          simp only [TypeGen.createTypesFromApiData, hs, okBind, hu, Bool.false_eq_true,
            if_false, hd, errBind]
        | ok defs =>
          left
          refine ⟨"// Auto-generated TypeScript types from OpenAPI schema\n  // Generated on: ",
            "\n  \n  " ++ defs, ?_, ?_⟩ <;>
          · simp only [TypeGen.createTypesFromApiData, hs, okBind, hu, Bool.false_eq_true,
              if_false, hd, pureBind, TypeGen.typesHeader]
            simp only [String.append_assoc]
            rfl
  · cases hp : entriesE api.paths with
    | error e =>
      right
      simp only [generateClientFromOpenAPI, hp, errBind]
    | ok pathEntries =>
      cases hb : buildPathInfos pathEntries with
      | error e =>
        right
        simp only [generateClientFromOpenAPI, hp, okBind, hb, errBind]
      | ok pathInfos =>
        cases hx : extractUsedTypes pathInfos api with
        | error e =>
          right
          simp only [generateClientFromOpenAPI, hp, okBind, hb, hx, errBind]
        | ok usedTypes =>
          cases hv : serversTypeExpr api.servers with
          | error e =>
            right
            simp only [generateClientFromOpenAPI, hp, okBind, hb, hx, hv, errBind]
          | ok serversStr =>
            cases hm : genMethodSections api (groupPathsByResource pathInfos) httpMethods with
            | error e =>
              right
              simp only [generateClientFromOpenAPI, hp, okBind, hb, hx, hv, hm, errBind]
            | ok methodsCode =>
              left
              refine ⟨clientHeaderPre,
                clientHeaderRest usedTypes serversStr ++ methodsCode ++ clientFooter, ?_, ?_⟩ <;>
              · simp only [generateClientFromOpenAPI, hp, okBind, hb, hx, hv, hm, pureBind]
                simp only [String.append_assoc]
                rfl

end DenoSaur
